import Mathlib

/-!
Shallow embedding of the vulnerability false-positive classification pipeline:
the manifest parser helpers (manifestParser.js), the reachability analyzer
(reachabilityAnalyzer.js), the false-positive detector (falsePositiveDetector.js)
and the JSON output generator (jsonGenerator.js).

JavaScript machine conventions used throughout:
- optional / possibly-undefined values are `Option _`;
- the JS truthiness of `a || b` on strings ("" is falsy) is `jsOrStr`;
- `s.includes(t)` is `strIncludes s t`;
- object maps are association lists in insertion order (`Object.entries` order).
-/

/-- JS `a || b` where `a` is a possibly-absent string and `""` is falsy. -/
def jsOrStr (a : Option String) (b : String) : String :=
  match a with
  | none => b
  | some s => if s = "" then b else s

/-- JS truthiness of a possibly-absent boolean (`undefined`/`null` are falsy). -/
def jsTruthy (a : Option Bool) : Bool :=
  match a with
  | none => false
  | some b => b

/-- Bool-valued infix test on character lists (scan for a prefix match). -/
def listInfixOf (needle : List Char) : List Char → Bool
  | [] => needle.isEmpty
  | c :: rest => needle.isPrefixOf (c :: rest) || listInfixOf needle rest

/-- JS `haystack.includes(needle)`: substring containment. -/
def strIncludes (haystack needle : String) : Bool :=
  listInfixOf needle.toList haystack.toList

/-- Lower-casing (kernel-reducible implementation over the character list). -/
def strToLower (s : String) : String :=
  String.mk (s.toList.map Char.toLower)

/-- Upper-casing (kernel-reducible implementation over the character list). -/
def strToUpper (s : String) : String :=
  String.mk (s.toList.map Char.toUpper)

/-- Whitespace trim at both ends (kernel-reducible). -/
def strTrim (s : String) : String :=
  String.mk (((s.toList.dropWhile Char.isWhitespace).reverse.dropWhile
    Char.isWhitespace).reverse)

/-- JS `s.startsWith(p)`. -/
def strStartsWith (s p : String) : Bool :=
  p.toList.isPrefixOf s.toList

/-- JS `s.endsWith(p)`. -/
def strEndsWith (s p : String) : Bool :=
  p.toList.reverse.isPrefixOf s.toList.reverse

/-- JS `s.split(sep)` for a one-character separator. -/
def splitOnChar (sep : Char) : List Char → List (List Char)
  | [] => [[]]
  | c :: rest =>
    let r := splitOnChar sep rest
    if c = sep then [] :: r
    else
      match r with
      | h :: t => (c :: h) :: t
      | [] => [[c]]

/-! ## manifestParser.js -/

/-- cleanVersionString: strip a leading run of range operators and all whitespace;
an empty input yields the sentinel "Unknown". -/
def cleanVersionString (version : String) : String :=
  if version = "" then "Unknown"
  else
    String.mk (((version.toList.dropWhile
      (fun c => c = '^' || c = '~' || c = '>' || c = '=' || c = '<'))).filter
      (fun c => !c.isWhitespace))

/-- Character class of the npm-scope regex: JS word characters plus slash and dash. -/
def scopeClassChar (c : Char) : Bool :=
  c.isAlphanum || c = '_' || c = '/' || c = '-'

/-- Index of the last slash in a character list, if any. -/
def lastSlashIdx (l : List Char) : Option Nat :=
  match l.reverse.findIdx? (fun c => c = '/') with
  | some k => some (l.length - 1 - k)
  | none => none

/-- Replace-first semantics of the scope-stripping pattern (an at sign, a
nonempty greedy run over the scope class, then a slash): the match starts at the
first at sign whose following class run contains a slash, and extends through the
last slash of that run; everything after the match is kept untouched. -/
def removeScope : List Char → List Char
  | [] => []
  | c :: rest =>
    if c = '@' then
      let run := rest.takeWhile scopeClassChar
      match lastSlashIdx run with
      | some j => rest.drop (j + 1)
      | none => c :: removeScope rest
    else c :: removeScope rest

/-- normalizePackageName: lower-case, drop dashes and underscores, strip the
first npm-scope prefix, trim. -/
def normalizePackageName (name : String) : String :=
  if name = "" then ""
  else
    strTrim (String.mk (removeScope
      (((strToLower name).toList).filter (fun c => !(c = '_' || c = '-')))))

/-- versionsMatch: false on an empty input; otherwise the cleaned strings match
when equal or when either is a prefix of the other. -/
def versionsMatch (version1 version2 : String) : Bool :=
  if version1 = "" || version2 = "" then false
  else
    let clean1 := cleanVersionString version1
    let clean2 := cleanVersionString version2
    clean1 = clean2 || strStartsWith clean1 clean2 || strStartsWith clean2 clean1

/-! ## Data model -/

/-- A manifest dependency-map value: either a bare version string or an entry
object (as built by the manifest parser). -/
inductive DepValue where
  | str (version : String)
  | obj (version : String) (isDev : Bool) (isOptional : Bool)
deriving DecidableEq, Repr

/-- JS `typeof info === 'object' ? info.version : info`. -/
def DepValue.versionOf : DepValue → String
  | .str v => v
  | .obj v _ _ => v

/-- JS `info?.isOptional` truthiness (undefined on a bare string). -/
def DepValue.optionalOf : DepValue → Bool
  | .str _ => false
  | .obj _ _ o => o

/-- Normalized dependency manifest (parseManifest output shape). -/
structure Manifest where
  type : String
  dependencies : List (String × DepValue)
  productionDependencies : List (String × String)
  devDependencies : List (String × String)
deriving DecidableEq, Repr

/-- A single vulnerability finding as produced by the OWASP report parser. -/
structure Finding where
  cveId : String
  dependency : String
  version : String
  reportedVersion : String
  severity : String
  description : String
  filePath : String
deriving DecidableEq, Repr

/-- Parsed OWASP report data (the part the analyzers read). -/
structure OwaspData where
  vulnerabilities : List Finding
deriving DecidableEq, Repr

/-- A call-graph node carrying an optional name and an optional id. -/
structure CGNode where
  name : Option String
  id : Option String
deriving DecidableEq, Repr

/-- A call-graph edge with the two accepted field spellings per endpoint. -/
structure CGEdge where
  «from» : Option String
  source : Option String
  «to» : Option String
  target : Option String
deriving DecidableEq, Repr

/-- Externally supplied call graph: either nodes/edges or functions/calls. -/
structure CallGraph where
  nodes : Option (List CGNode)
  functions : Option (List CGNode)
  edges : Option (List CGEdge)
  calls : Option (List CGEdge)
deriving DecidableEq, Repr

/-- JS `callGraph.nodes || callGraph.functions || []` (arrays are truthy). -/
def CallGraph.nodeList (g : CallGraph) : List CGNode :=
  match g.nodes with
  | some l => l
  | none => g.functions.getD []

/-- JS `callGraph.edges || callGraph.calls || []`. -/
def CallGraph.edgeList (g : CallGraph) : List CGEdge :=
  match g.edges with
  | some l => l
  | none => g.calls.getD []

/-! ## Association-list maps (JS plain objects in insertion order) -/

/-- Lookup in a JS-object-as-association-list. -/
def mapLookup (l : List (String × α)) (k : String) : Option α :=
  (l.find? (fun p => p.1 = k)).map (fun p => p.2)

/-- JS `obj[k] = v`: update the existing binding in place, else append. -/
def mapUpsert (l : List (String × α)) (k : String) (v : α) : List (String × α) :=
  if l.any (fun p => p.1 = k) then
    l.map (fun p => if p.1 = k then (k, v) else p)
  else l ++ [(k, v)]

/-! ## reachabilityAnalyzer.js -/

namespace ReachabilityAnalyzer

/-- The archive extensions stripped from dependency identifiers. -/
def archiveSuffixes : List String :=
  [".jar", ".war", ".zip", ".tar.gz", ".tgz", ".whl", ".egg"]

/-- Strip one trailing archive extension, case-insensitively. -/
def stripArchiveSuffix (name : String) : String :=
  match archiveSuffixes.find? (fun suf => strEndsWith (strToLower name) suf) with
  | some suf => String.mk (name.toList.take (name.length - suf.length))
  | none => name

/-- Word-or-dot character class of the trailing-version pattern. -/
def wordDotChar (c : Char) : Bool :=
  c.isAlphanum || c = '_' || c = '.'

/-- Does a character list match the optional trailer of the
trailing-version pattern (a dot or dash then a nonempty word-or-dot run),
or is it empty, ending exactly at the end of the string? -/
def matchVersionTrailer (l : List Char) : Bool :=
  match l with
  | [] => true
  | c :: rest => (c = '.' || c = '-') && !rest.isEmpty && rest.all wordDotChar

/-- Match a possibly-empty digit run followed by `next`. -/
def digitsStar (next : List Char → Bool) : List Char → Bool
  | [] => next []
  | c :: rest => next (c :: rest) || (c.isDigit && digitsStar next rest)

/-- Match a nonempty digit run followed by `next`. -/
def digitsPlus (next : List Char → Bool) : List Char → Bool
  | [] => false
  | c :: rest => c.isDigit && digitsStar next rest

/-- Match the tail after the second digit group: an optional extra dot-digit
group, then the optional trailer, ending at the end of the string. -/
def matchAfterMinor (l : List Char) : Bool :=
  matchVersionTrailer l ||
    (match l with
     | '.' :: rest => digitsPlus matchVersionTrailer rest
     | _ => false)

/-- Does a character list match the whole trailing-version pattern (a dash,
digits, a dot, digits, optional patch group, optional trailer) to the end? -/
def matchVersionSuffix (l : List Char) : Bool :=
  match l with
  | '-' :: rest =>
      digitsPlus (fun l1 =>
        match l1 with
        | '.' :: rest2 => digitsPlus matchAfterMinor rest2
        | _ => false) rest
  | _ => false

/-- Replace-first semantics of the trailing-version strip: drop the suffix
starting at the leftmost position from which the pattern matches to the end. -/
def stripVersionSuffix : List Char → List Char
  | [] => []
  | c :: rest =>
    if matchVersionSuffix (c :: rest) then []
    else c :: stripVersionSuffix rest

/-- extractPackageName (reachabilityAnalyzer.js variant, with the scoped-package
step): strip an archive extension, return the artifactId of a colon-separated
Maven coordinate, cut an npm version suffix after an at sign, truncate a scoped
package at its second at sign, and strip a trailing semantic-version suffix. -/
def extractPackageName (dependency : String) : String :=
  if dependency = "" then ""
  else
    let name := stripArchiveSuffix dependency
    if strIncludes name ":" then
      let parts := (splitOnChar ':' name.toList).map String.mk
      if parts.length ≥ 2 then parts.getD 1 "" else name
    else
      let name1 :=
        if strIncludes name "@" && !(strStartsWith name "@") then
          String.mk (name.toList.takeWhile (fun c => c ≠ '@'))
        else name
      let name2 :=
        if strStartsWith name1 "@" then
          match (name1.toList.drop 1).findIdx? (fun c => c = '@') with
          | some k => String.mk (name1.toList.take (k + 1))
          | none => name1
        else name1
      String.mk (stripVersionSuffix name2.toList)

/-- classifyPath: label a file path non-production when a marker appears as a
whole slash- or backslash-delimited segment; unknown on an empty path. -/
def classifyPath (filePath : String) : String :=
  if filePath = "" then "unknown"
  else
    let lowered := strToLower filePath
    let nonProdMarkers := ["test", "__tests__", "spec", "__mocks__", "example",
      "examples", "demo", "sample", "fixture"]
    let isNonProd := nonProdMarkers.any (fun marker =>
      strIncludes lowered ("/" ++ marker ++ "/") ||
      strIncludes lowered ("\\" ++ marker ++ "\\") ||
      strEndsWith lowered ("/" ++ marker) ||
      strEndsWith lowered ("\\" ++ marker))
    if isNonProd then "non_prod" else "prod"

/-- Verdict of the call-graph evidence assessor. -/
structure CGResult where
  isReachable : Bool
  confidence : String
  reason : String
  evidence : String
deriving DecidableEq, Repr

/-- assessCallGraphReachability: none without a call graph; otherwise reachable
iff some node name/id normalizes exactly to the dependency's normalized name or
some edge endpoint (normalized) contains it as a substring, with confidence HIGH
on edge evidence and MEDIUM on node-only evidence. -/
def assessCallGraphReachability (vuln : Finding) (callGraph : Option CallGraph) :
    Option CGResult :=
  match callGraph with
  | none => none
  | some g =>
    let dependencyName := extractPackageName vuln.dependency
    let normalized := normalizePackageName dependencyName
    let referencedByNode := g.nodeList.any (fun node =>
      normalizePackageName (jsOrStr node.name (jsOrStr node.id "")) = normalized)
    let referencedByEdge := g.edgeList.any (fun edge =>
      let fromStr := normalizePackageName (jsOrStr edge.«from» (jsOrStr edge.source ""))
      let toStr := normalizePackageName (jsOrStr edge.«to» (jsOrStr edge.target ""))
      strIncludes fromStr normalized || strIncludes toStr normalized)
    if !referencedByNode && !referencedByEdge then
      some {
        isReachable := false
        confidence := "HIGH"
        reason := "Call graph analysis: no invocation path to the vulnerable component"
        evidence := "No call graph nodes or edges reference this dependency" }
    else
      some {
        isReachable := true
        confidence := if referencedByEdge then "HIGH" else "MEDIUM"
        reason := "Call graph analysis: vulnerable component is referenced in application call graph"
        evidence := "Call graph contains references to the vulnerable component" }

/-- A manifest match returned by findDependencyMatch. -/
structure DepMatch where
  name : String
  version : String
  info : DepValue
  partialMatch : Bool
deriving DecidableEq, Repr

/-- The loop body of findDependencyMatch over the manifest entries in order:
an exact normalized match returns the entry; otherwise substring containment in
either direction returns it flagged as partial. -/
def findMatchLoop (normalizedSearch : String) :
    List (String × DepValue) → Option DepMatch
  | [] => none
  | (name, info) :: rest =>
    let normalizedName := normalizePackageName name
    if normalizedName = normalizedSearch then
      some { name := name, version := info.versionOf, info := info, partialMatch := false }
    else if strIncludes normalizedName normalizedSearch ||
              strIncludes normalizedSearch normalizedName then
      some { name := name, version := info.versionOf, info := info, partialMatch := true }
    else
      findMatchLoop normalizedSearch rest

/-- findDependencyMatch: null on an empty name, else the first entry matching
exactly or by substring containment. -/
def findDependencyMatch (depName : String) (manifestDeps : List (String × DepValue)) :
    Option DepMatch :=
  if depName = "" then none
  else findMatchLoop (normalizePackageName depName) manifestDeps

end ReachabilityAnalyzer

namespace ReachabilityAnalyzer

/-- One reachability record, as stored in the reachability map. Fields that the
no-manifest branch leaves null/undefined are options. -/
structure ReachabilityInfo where
  isReachable : Bool
  confidence : String
  reason : String
  isDirect : Option Bool
  isDevDependency : Option Bool
  matchedDependency : Option String
  actualVersion : Option String
  callGraphEvidence : Option String
  pathClassification : String
deriving DecidableEq, Repr

/-- Result object of analyzeReachability. -/
structure ReachResults where
  directDependencies : List String
  transitiveDependencies : List String
  unreachableDependencies : List String
  reachabilityMap : List (String × ReachabilityInfo)
deriving DecidableEq, Repr

/-- The empty results accumulator. -/
def emptyResults : ReachResults :=
  { directDependencies := []
    transitiveDependencies := []
    unreachableDependencies := []
    reachabilityMap := [] }

/-- Lift a name-to-version map (production or dev dependencies) to the
dependency-map value shape expected by findDependencyMatch. -/
def strMap (l : List (String × String)) : List (String × DepValue) :=
  l.map (fun p => (p.1, DepValue.str p.2))

/-- The record built for one finding in the no-manifest branch: call-graph
verdict or the reachable default, with path classification only adjusting
confidence and reason. -/
def noManifestInfo (vuln : Finding) (callGraph : Option CallGraph) : ReachabilityInfo :=
  let callGraphResult := assessCallGraphReachability vuln callGraph
  let pathClassification := classifyPath vuln.filePath
  { isReachable :=
      match callGraphResult with
      | some r => r.isReachable
      | none => true
    confidence := jsOrStr (callGraphResult.map (fun r => r.confidence))
      (if pathClassification = "non_prod" then "MEDIUM" else "LOW")
    reason := jsOrStr (callGraphResult.map (fun r => r.reason))
      (if pathClassification = "non_prod" then
        "Vulnerability exists in non-production/test/example path"
      else "No manifest provided - reachability assumed")
    isDirect := none
    isDevDependency := none
    matchedDependency := none
    actualVersion := none
    callGraphEvidence :=
      match callGraphResult with
      | some r => if r.evidence = "" then none else some r.evidence
      | none => none
    pathClassification := pathClassification }

/-- The baseline record of the manifest branch. -/
def baselineInfo (vuln : Finding) : ReachabilityInfo :=
  { isReachable := true
    confidence := "MEDIUM"
    reason := "No reachability blockers detected"
    isDirect := some false
    isDevDependency := some false
    matchedDependency := none
    actualVersion := none
    callGraphEvidence := none
    pathClassification := classifyPath vuln.filePath }

/-- Manifest-branch override 2: record a direct manifest match. -/
def stepDirect (directMatch : Option DepMatch) (info : ReachabilityInfo) :
    ReachabilityInfo :=
  match directMatch with
  | some dm => { info with
      isDirect := some true
      matchedDependency := some dm.name
      actualVersion := some dm.version }
  | none => info

/-- Manifest-branch override 3: call-graph evidence rewrites the verdict. -/
def stepCallGraph (callGraphResult : Option CGResult) (info : ReachabilityInfo) :
    ReachabilityInfo :=
  match callGraphResult with
  | some r => { info with
      callGraphEvidence := some r.evidence
      isReachable := r.isReachable
      confidence := r.confidence
      reason := r.reason }
  | none => info

/-- Manifest-branch override 4: dev-only dependencies are unreachable. -/
def stepDevOnly (devOnly : Bool) (info : ReachabilityInfo) : ReachabilityInfo :=
  if devOnly then
    { info with
      isDevDependency := some true
      isReachable := false
      confidence := "HIGH"
      reason := "Development-only dependency - not included in production builds" }
  else info

/-- Manifest-branch override 5: direct production dependencies are reachable. -/
def stepProd (prodOnly : Bool) (info : ReachabilityInfo) : ReachabilityInfo :=
  if prodOnly then
    { info with
      isReachable := true
      confidence := "HIGH"
      reason := "Direct production dependency - code is reachable" }
  else info

/-- Manifest-branch override 6: unmatched dependencies are transitive. -/
def stepTransitive (noDirect : Bool) (info : ReachabilityInfo) : ReachabilityInfo :=
  if noDirect then
    { info with
      isDirect := some false
      reason := "Transitive dependency - may or may not be reachable"
      isReachable := true }
  else info

/-- Manifest-branch override 7: non-production paths are unreachable. -/
def stepNonProd (info : ReachabilityInfo) : ReachabilityInfo :=
  if info.pathClassification = "non_prod" then
    { info with
      isReachable := false
      confidence := "HIGH"
      reason := "Vulnerability exists in non-production/test/example path" }
  else info

/-- Manifest-branch override 8: optional non-production dependencies. -/
def stepOptional (optionalNotProd : Bool) (info : ReachabilityInfo) :
    ReachabilityInfo :=
  if optionalNotProd then
    { info with
      isReachable := false
      confidence := "MEDIUM"
      reason := "Optional dependency not included in production runtime" }
  else info

/-- The record built for one finding in the manifest branch: the baseline then
the sequential overrides (direct match, call graph, dev-only, production,
transitive, non-production path, optional dependency) in source order. -/
def manifestInfo (m : Manifest) (callGraph : Option CallGraph) (vuln : Finding) :
    ReachabilityInfo :=
  let depName := extractPackageName vuln.dependency
  let directMatch := findDependencyMatch depName m.dependencies
  let prodMatch := findDependencyMatch depName (strMap m.productionDependencies)
  let devMatch := findDependencyMatch depName (strMap m.devDependencies)
  stepOptional
    ((match directMatch with
      | some dm => dm.info.optionalOf
      | none => false) && prodMatch.isNone)
    (stepNonProd
      (stepTransitive directMatch.isNone
        (stepProd (devMatch.isNone && prodMatch.isSome)
          (stepDevOnly (devMatch.isSome && prodMatch.isNone)
            (stepCallGraph (assessCallGraphReachability vuln callGraph)
              (stepDirect directMatch (baselineInfo vuln)))))))

/-- One loop iteration of the manifest branch: record the per-finding info in
the map and replicate the array pushes guarded by the same conditions. -/
def processVuln (m : Manifest) (callGraph : Option CallGraph)
    (res : ReachResults) (vuln : Finding) : ReachResults :=
  let depName := extractPackageName vuln.dependency
  let directMatch := findDependencyMatch depName m.dependencies
  let prodMatch := findDependencyMatch depName (strMap m.productionDependencies)
  let devMatch := findDependencyMatch depName (strMap m.devDependencies)
  let info := manifestInfo m callGraph vuln
  let devOnly := devMatch.isSome && prodMatch.isNone
  let prodOnly := devMatch.isNone && prodMatch.isSome
  let nonProd := classifyPath vuln.filePath = "non_prod"
  let optionalNotProd :=
    (match directMatch with
     | some dm => dm.info.optionalOf
     | none => false) && prodMatch.isNone
  { directDependencies :=
      res.directDependencies ++ (if prodOnly then [vuln.dependency] else [])
    transitiveDependencies :=
      res.transitiveDependencies ++ (if directMatch.isNone then [vuln.dependency] else [])
    unreachableDependencies :=
      res.unreachableDependencies ++
        (if devOnly then [vuln.dependency] else []) ++
        (if nonProd then [vuln.dependency] else []) ++
        (if optionalNotProd then [vuln.dependency] else [])
    reachabilityMap := mapUpsert res.reachabilityMap vuln.cveId info }

/-- One loop iteration of the no-manifest branch. -/
def processVulnNoManifest (callGraph : Option CallGraph)
    (res : ReachResults) (vuln : Finding) : ReachResults :=
  let info := noManifestInfo vuln callGraph
  { res with
    unreachableDependencies :=
      res.unreachableDependencies ++
        (if classifyPath vuln.filePath = "non_prod" then [vuln.dependency] else [])
    reachabilityMap := mapUpsert res.reachabilityMap vuln.cveId info }

/-- analyzeReachability: build one reachability record per finding, keyed in the
map by the finding's cveId. -/
def analyzeReachability (owaspData : OwaspData) (manifestData : Option Manifest)
    (callGraph : Option CallGraph) : ReachResults :=
  match manifestData with
  | none => owaspData.vulnerabilities.foldl (processVulnNoManifest callGraph) emptyResults
  | some m => owaspData.vulnerabilities.foldl (processVuln m callGraph) emptyResults

end ReachabilityAnalyzer

/-! ## falsePositiveDetector.js -/

namespace FalsePositiveDetector

/-- extractPackageName (falsePositiveDetector.js variant, without the
scoped-package truncation step of the reachability analyzer's copy). -/
def extractPackageName (dependency : String) : String :=
  if dependency = "" then ""
  else
    let name := ReachabilityAnalyzer.stripArchiveSuffix dependency
    if strIncludes name ":" then
      let parts := (splitOnChar ':' name.toList).map String.mk
      if parts.length ≥ 2 then parts.getD 1 "" else name
    else
      let name1 :=
        if strIncludes name "@" && !(strStartsWith name "@") then
          String.mk (name.toList.takeWhile (fun c => c ≠ '@'))
        else name
      String.mk (ReachabilityAnalyzer.stripVersionSuffix name1.toList)

/-- formatDependency: append the version after an at sign unless it is absent
or the Unknown sentinel. -/
def formatDependency (dependency version : String) : String :=
  if version ≠ "" && version ≠ "Unknown" then dependency ++ "@" ++ version
  else dependency

/-- One version component per JS `parseInt(p.replace(non-digits, ''))` with
zero default: the digits of the component read as a number. -/
def componentNat (p : String) : Nat :=
  (p.toList.filter Char.isDigit).foldl (fun a c => a * 10 + (c.toNat - 48)) 0

/-- Numeric components of a version string, split on dots. -/
def verComponents (v : String) : List Nat :=
  ((splitOnChar '.' v.toList).map String.mk).map componentNat

/-- The comparison loop of isHigherVersion: walk both component lists for
`fuel` steps, treating missing components as zero, and decide at the first
strict difference. -/
def gtLoop : Nat → List Nat → List Nat → Bool
  | 0, _, _ => false
  | fuel + 1, xs, ys =>
    let x := xs.headD 0
    let y := ys.headD 0
    if x > y then true
    else if x < y then false
    else gtLoop fuel xs.tail ys.tail

/-- isHigherVersion: component-wise numeric comparison of dotted versions,
left-padded with zeros; false when either string is empty. -/
def isHigherVersion (v1 v2 : String) : Bool :=
  if v1 = "" || v2 = "" then false
  else
    let parts1 := verComponents v1
    let parts2 := verComponents v2
    gtLoop (max parts1.length parts2.length) parts1 parts2

/-- Verdict of one false-positive check (and of analyzeVulnerability). -/
structure FPCheckResult where
  isFalsePositive : Bool
  reason : Option String
  details : String
  confidence : String
deriving DecidableEq, Repr

/-- The non-firing default result of a check carrying its reason code. -/
def defaultResult (reason : Option String) : FPCheckResult :=
  { isFalsePositive := false, reason := reason, details := "", confidence := "LOW" }

/-- The loop of checkVersionMismatch over the manifest dependency entries:
fire on the first entry whose normalized name equals the normalized dependency
name and whose declared version mismatches the reported one, with HIGH
confidence when the declared version is numerically higher. -/
def versionLoop (depName reportedVersion : String) :
    List (String × DepValue) → FPCheckResult
  | [] => defaultResult (some "VERSION_MISMATCH")
  | (name, info) :: rest =>
    let actualVersion := info.versionOf
    if normalizePackageName name = normalizePackageName depName &&
        actualVersion ≠ "" && reportedVersion ≠ "" &&
        !versionsMatch actualVersion reportedVersion then
      if isHigherVersion actualVersion reportedVersion then
        { isFalsePositive := true
          reason := some "VERSION_MISMATCH"
          details := "Actual installed version (" ++ actualVersion ++
            ") is newer than the reported vulnerable version (" ++ reportedVersion ++
            "). The vulnerability may have been patched."
          confidence := "HIGH" }
      else
        { isFalsePositive := true
          reason := some "VERSION_MISMATCH"
          details := "Version mismatch: OWASP reported " ++ reportedVersion ++
            ", but manifest shows " ++ actualVersion ++ "."
          confidence := "MEDIUM" }
    else versionLoop depName reportedVersion rest

/-- checkVersionMismatch: requires a manifest; scans the dependency map for a
name match with a version mismatch. -/
def checkVersionMismatch (vuln : Finding) (manifestData : Option Manifest) :
    FPCheckResult :=
  match manifestData with
  | none => defaultResult (some "VERSION_MISMATCH")
  | some m =>
    let depName := extractPackageName vuln.dependency
    let reportedVersion := jsOrStr (some vuln.version) vuln.reportedVersion
    versionLoop depName reportedVersion m.dependencies

/-- The OS/platform keyword table of checkEnvironmentMismatch. -/
def envSignals : List (String × List String) :=
  [("windows", ["win32"]), ("macos", ["darwin"]), ("os x", ["darwin"]),
   ("linux", ["linux"]), ("android", ["android"]), ("ios", ["ios"])]

/-- checkEnvironmentMismatch: fire at MEDIUM when the description mentions an
OS keyword whose platforms exclude the runtime platform, or when the manifest
ecosystem type contradicts a runtime keyword in the description. -/
def checkEnvironmentMismatch (vuln : Finding) (manifestData : Option Manifest)
    (runtimePlatform : String) : FPCheckResult :=
  let description := strToLower vuln.description
  match envSignals.find? (fun s =>
      strIncludes description s.1 && !(s.2.contains runtimePlatform)) with
  | some s =>
    { isFalsePositive := true
      reason := some "ENV_MISMATCH"
      details := "Vulnerability is described as affecting " ++ s.1 ++
        " environments, but the current runtime platform is " ++ runtimePlatform ++ "."
      confidence := "MEDIUM" }
  | none =>
    let manifestType := manifestData.map (fun m => m.type)
    let r0 := defaultResult (some "ENV_MISMATCH")
    let r1 :=
      if manifestType = some "npm" && strIncludes description "python" then
        { r0 with
          isFalsePositive := true
          confidence := "MEDIUM"
          details := "Vulnerability targets Python environments, but the project manifest indicates a Node.js application." }
      else r0
    let r2 :=
      if manifestType = some "pip" && strIncludes description "node" then
        { r1 with
          isFalsePositive := true
          confidence := "MEDIUM"
          details := "Vulnerability targets Node.js environments, but the project manifest indicates a Python application." }
      else r1
    if manifestType = some "maven" && strIncludes description "node" then
      { r2 with
        isFalsePositive := true
        confidence := "MEDIUM"
        details := "Vulnerability targets Node.js ecosystems, but the project manifest indicates a JVM application." }
    else r2

/-- Lookup of the reachability record for a finding: the map is consulted by
the finding's cveId alone. -/
def reachInfoFor (reachabilityResults : Option ReachabilityAnalyzer.ReachResults)
    (vuln : Finding) : Option ReachabilityAnalyzer.ReachabilityInfo :=
  match reachabilityResults with
  | none => none
  | some r => mapLookup r.reachabilityMap vuln.cveId

/-- checkDevOnlyDependency: requires a manifest; fire at HIGH when the
reachability record flags a dev dependency, or when the dependency's normalized
name is listed among the dev dependencies and not among the production ones. -/
def checkDevOnlyDependency (vuln : Finding) (manifestData : Option Manifest)
    (reachabilityResults : Option ReachabilityAnalyzer.ReachResults) : FPCheckResult :=
  match manifestData with
  | none => defaultResult (some "DEV_ONLY")
  | some m =>
    let reachInfo := reachInfoFor reachabilityResults vuln
    if jsTruthy (reachInfo.map (fun i => jsTruthy i.isDevDependency)) then
      { isFalsePositive := true
        reason := some "DEV_ONLY"
        details := vuln.dependency ++
          " is listed as a devDependency and is not included in production builds. This vulnerability does not affect production deployments."
        confidence := "HIGH" }
    else
      let depName := extractPackageName vuln.dependency
      let isInDev := m.devDependencies.any (fun p =>
        normalizePackageName p.1 = normalizePackageName depName)
      let isInProd := m.productionDependencies.any (fun p =>
        normalizePackageName p.1 = normalizePackageName depName)
      if isInDev && !isInProd then
        { isFalsePositive := true
          reason := some "DEV_ONLY"
          details := depName ++
            " is only listed in devDependencies. This vulnerability does not affect production deployments."
          confidence := "HIGH" }
      else defaultResult (some "DEV_ONLY")

/-- checkReachability: fire, copying the record's confidence, when the
reachability record exists and marks the finding unreachable. -/
def checkReachability (vuln : Finding)
    (reachabilityResults : Option ReachabilityAnalyzer.ReachResults) : FPCheckResult :=
  match reachInfoFor reachabilityResults vuln with
  | some reachInfo =>
    if !reachInfo.isReachable then
      { isFalsePositive := true
        reason := some "NON_REACHABLE"
        details := jsOrStr (some reachInfo.reason)
          "The vulnerable code path is not reachable from the application"
        confidence := reachInfo.confidence }
    else defaultResult (some "NON_REACHABLE")
  | none => defaultResult (some "NON_REACHABLE")

/-- checkUnusedTransitive: requires a manifest; fire at MEDIUM when the record
is not direct with non-HIGH confidence and the dependency is absent from the
whole manifest dependency map. -/
def checkUnusedTransitive (vuln : Finding) (manifestData : Option Manifest)
    (reachabilityResults : Option ReachabilityAnalyzer.ReachResults) : FPCheckResult :=
  match manifestData with
  | none => defaultResult (some "UNUSED_TRANSITIVE")
  | some m =>
    match reachInfoFor reachabilityResults vuln with
    | some reachInfo =>
      if !jsTruthy reachInfo.isDirect && reachInfo.confidence ≠ "HIGH" then
        let depName := extractPackageName vuln.dependency
        let isInManifest := m.dependencies.any (fun p =>
          normalizePackageName p.1 = normalizePackageName depName)
        if !isInManifest then
          { isFalsePositive := true
            reason := some "UNUSED_TRANSITIVE"
            details := depName ++
              " is a transitive dependency not directly declared in the project. It may be pulled in by another dependency but might not be actively used."
            confidence := "MEDIUM" }
        else defaultResult (some "UNUSED_TRANSITIVE")
      else defaultResult (some "UNUSED_TRANSITIVE")
    | none => defaultResult (some "UNUSED_TRANSITIVE")

/-- analyzeVulnerability: run the five checks in order and return the verdict
of the first that fires, else the non-false-positive default. -/
def analyzeVulnerability (vuln : Finding) (manifestData : Option Manifest)
    (reachabilityResults : Option ReachabilityAnalyzer.ReachResults)
    (runtimePlatform : String) : FPCheckResult :=
  let versionCheck := checkVersionMismatch vuln manifestData
  if versionCheck.isFalsePositive then versionCheck
  else
    let envCheck := checkEnvironmentMismatch vuln manifestData runtimePlatform
    if envCheck.isFalsePositive then envCheck
    else
      let devCheck := checkDevOnlyDependency vuln manifestData reachabilityResults
      if devCheck.isFalsePositive then devCheck
      else
        let reachabilityCheck := checkReachability vuln reachabilityResults
        if reachabilityCheck.isFalsePositive then reachabilityCheck
        else
          let transitiveCheck := checkUnusedTransitive vuln manifestData reachabilityResults
          if transitiveCheck.isFalsePositive then transitiveCheck
          else
            { isFalsePositive := false, reason := none, details := "", confidence := "LOW" }

/-- An entry of the false-positives array produced by detectFalsePositives. -/
structure FPEntry where
  cve_id : String
  dependency : String
  reason : Option String
  details : String
  confidence : String
  originalVuln : Finding
deriving DecidableEq, Repr

/-- The entry pushed for a finding whose analysis fires. -/
def fpEntryFor (manifestData : Option Manifest)
    (reachabilityResults : Option ReachabilityAnalyzer.ReachResults)
    (runtimePlatform : String) (vuln : Finding) : FPEntry :=
  let fpResult := analyzeVulnerability vuln manifestData reachabilityResults runtimePlatform
  { cve_id := vuln.cveId
    dependency := formatDependency vuln.dependency vuln.version
    reason := fpResult.reason
    details := fpResult.details
    confidence := fpResult.confidence
    originalVuln := vuln }

/-- detectFalsePositives: collect one entry per finding whose analysis fires. -/
def detectFalsePositives (owaspData : OwaspData) (manifestData : Option Manifest)
    (reachabilityResults : Option ReachabilityAnalyzer.ReachResults)
    (runtimePlatform : String) : List FPEntry :=
  owaspData.vulnerabilities.foldl (fun acc vuln =>
    if (analyzeVulnerability vuln manifestData reachabilityResults
          runtimePlatform).isFalsePositive then
      acc ++ [fpEntryFor manifestData reachabilityResults runtimePlatform vuln]
    else acc) []

end FalsePositiveDetector

/-! ## jsonGenerator.js and the analysis pipeline -/

namespace JsonGenerator

open FalsePositiveDetector

/-- A formatted false-positive entry of the output object. -/
structure FPOut where
  cve_id : String
  dependency : String
  reason : Option String
  details : String
  confidence : String
deriving DecidableEq, Repr

/-- A formatted true-vulnerability entry of the output object (the fields the
claims consult; reference trimming is not modelled since findings here carry no
reference lists). -/
structure TVOut where
  cve_id : String
  dependency : String
  severity : String
  description : String
deriving DecidableEq, Repr

/-- formatFalsePositives: project each detector entry onto the output fields. -/
def formatFalsePositives (falsePositives : List FPEntry) : List FPOut :=
  falsePositives.map (fun fp =>
    { cve_id := fp.cve_id
      dependency := fp.dependency
      reason := fp.reason
      details := fp.details
      confidence := fp.confidence })

/-- formatTrueVulnerabilities: project each finding onto the output fields. -/
def formatTrueVulnerabilities (vulnerabilities : List Finding) : List TVOut :=
  vulnerabilities.map (fun vuln =>
    { cve_id := vuln.cveId
      dependency := vuln.dependency
      severity := vuln.severity
      description := vuln.description })

/-- The severity histogram of the summary. -/
structure SeverityCounts where
  critical : Nat
  high : Nat
  medium : Nat
  low : Nat
deriving DecidableEq, Repr

/-- Count the recognized severities over the true vulnerabilities; a missing
severity defaults to low and unrecognized ones are dropped. -/
def countSeverities (trueVulnerabilities : List Finding) : SeverityCounts :=
  trueVulnerabilities.foldl (fun acc vuln =>
    let severity := strToLower (jsOrStr (some vuln.severity) "low")
    if severity = "critical" then { acc with critical := acc.critical + 1 }
    else if severity = "high" then { acc with high := acc.high + 1 }
    else if severity = "medium" then { acc with medium := acc.medium + 1 }
    else if severity = "low" then { acc with low := acc.low + 1 }
    else acc) { critical := 0, high := 0, medium := 0, low := 0 }

/-- The false-positive reason histogram, keyed by reason code in first-seen
order; an absent reason counts under UNKNOWN. -/
def countFpReasons (falsePositives : List FPEntry) : List (String × Nat) :=
  falsePositives.foldl (fun acc fp =>
    let reason := jsOrStr fp.reason "UNKNOWN"
    mapUpsert acc reason ((mapLookup acc reason).getD 0 + 1)) []

/-- calculateFpRate: the rounded percentage of false positives, zero when no
findings were scanned (exact rational arithmetic in place of JS doubles). -/
def calculateFpRate (fpCount trueCount : Nat) : Int :=
  let total := fpCount + trueCount
  if total = 0 then 0
  else round ((fpCount : ℚ) / (total : ℚ) * 100)

/-- The per-vulnerability weight of the risk score: the weight table under the
upper-cased severity (missing severity defaults to LOW), any other severity
contributing the fallback 1. -/
def severityWeight (severity : String) : Nat :=
  let sev := strToUpper (jsOrStr (some severity) "LOW")
  if sev = "CRITICAL" then 25
  else if sev = "HIGH" then 15
  else if sev = "MEDIUM" then 5
  else if sev = "LOW" then 1
  else 1

/-- calculateRiskScore: zero on an empty list, else the summed severity
weights capped at 100. -/
def calculateRiskScore (vulnerabilities : List Finding) : Nat :=
  if vulnerabilities.length = 0 then 0
  else
    min 100 (vulnerabilities.foldl (fun score vuln =>
      score + severityWeight vuln.severity) 0)

/-- The summary object of the output. -/
structure Summary where
  total_scanned : Nat
  false_positive_rate : Int
  severity_breakdown : SeverityCounts
  false_positive_reasons : List (String × Nat)
  risk_score : Nat
  requires_immediate_action : Bool
deriving DecidableEq, Repr

/-- generateSummary over the two buckets. -/
def generateSummary (falsePositives : List FPEntry)
    (trueVulnerabilities : List Finding) : Summary :=
  let severityCounts := countSeverities trueVulnerabilities
  { total_scanned := falsePositives.length + trueVulnerabilities.length
    false_positive_rate := calculateFpRate falsePositives.length trueVulnerabilities.length
    severity_breakdown := severityCounts
    false_positive_reasons := countFpReasons falsePositives
    risk_score := calculateRiskScore trueVulnerabilities
    requires_immediate_action := severityCounts.critical > 0 || severityCounts.high > 0 }

/-- The metadata object of the output (the analysis timestamp, an impure clock
read, is not modelled). -/
structure Metadata where
  project_name : String
  tool_version : String
  total_vulnerabilities_scanned : Nat
  false_positives_identified : Nat
  true_vulnerabilities_found : Nat
deriving DecidableEq, Repr

/-- The structured analysis output object. -/
structure JsonOutput where
  false_positives : List FPOut
  true_vulnerabilities : List TVOut
  metadata : Metadata
  summary : Summary
deriving DecidableEq, Repr

/-- generateJsonOutput: format both buckets, enrich the metadata with the three
counts, and attach the summary. -/
def generateJsonOutput (falsePositives : List FPEntry)
    (trueVulnerabilities : List Finding) (projectName : String) : JsonOutput :=
  { false_positives := formatFalsePositives falsePositives
    true_vulnerabilities := formatTrueVulnerabilities trueVulnerabilities
    metadata :=
      { project_name := projectName
        tool_version := "1.0.0"
        total_vulnerabilities_scanned := falsePositives.length + trueVulnerabilities.length
        false_positives_identified := falsePositives.length
        true_vulnerabilities_found := trueVulnerabilities.length }
    summary := generateSummary falsePositives trueVulnerabilities }

end JsonGenerator

/-- Modelled from the spec: vulnerabilityExtractor.js (extractVulnerabilities)
is not among the available sources, only its caller is. Per the spec's
partitioner description and partition invariant, the true-vulnerability bucket
holds exactly the findings whose classification is not a false positive, so the
extractor is modelled as the complement of the classifier's firing set over the
finding list. -/
def extractVulnerabilities (owaspData : OwaspData) (manifestData : Option Manifest)
    (reachabilityResults : Option ReachabilityAnalyzer.ReachResults)
    (runtimePlatform : String) : List Finding :=
  owaspData.vulnerabilities.filter (fun vuln =>
    !(FalsePositiveDetector.analyzeVulnerability vuln manifestData reachabilityResults
        runtimePlatform).isFalsePositive)

/-- The analysis pipeline of the /api/analyze route: reachability analysis,
false-positive detection, true-vulnerability extraction, JSON output. -/
def analysisPipeline (owaspData : OwaspData) (manifestData : Option Manifest)
    (callGraph : Option CallGraph) (runtimePlatform : String)
    (projectName : String) : JsonGenerator.JsonOutput :=
  let reachabilityResults := ReachabilityAnalyzer.analyzeReachability owaspData manifestData callGraph
  let falsePositives := FalsePositiveDetector.detectFalsePositives owaspData manifestData
    (some reachabilityResults) runtimePlatform
  let trueVulnerabilities := extractVulnerabilities owaspData manifestData
    (some reachabilityResults) runtimePlatform
  JsonGenerator.generateJsonOutput falsePositives trueVulnerabilities projectName

/-! ## Theorems -/

/-- Helper: the risk-score fold equals an initial value plus the summed weights. -/
theorem foldl_weight_eq (l : List Finding) : ∀ n : Nat,
    l.foldl (fun score vuln => score + JsonGenerator.severityWeight vuln.severity) n =
      n + (l.map (fun v => JsonGenerator.severityWeight v.severity)).sum := by
  induction l with
  | nil => simp
  | cons v vs ih =>
    intro n
    simp [ih, Nat.add_assoc]

/-- C8. Risk score: for every list of true vulnerabilities the risk score is
the sum of the per-vulnerability severity weights capped at 100, where the
weights are CRITICAL=25, HIGH=15, MEDIUM=5, LOW=1 and any other or missing
severity contributes 1; five CRITICAL findings give exactly 100 and the empty
list gives 0. -/
theorem risk_score_capped_weighted_sum :
    (∀ vulns : List Finding,
      JsonGenerator.calculateRiskScore vulns =
        min 100 ((vulns.map (fun v => JsonGenerator.severityWeight v.severity)).sum)) ∧
    JsonGenerator.severityWeight "CRITICAL" = 25 ∧
    JsonGenerator.severityWeight "HIGH" = 15 ∧
    JsonGenerator.severityWeight "MEDIUM" = 5 ∧
    JsonGenerator.severityWeight "LOW" = 1 ∧
    JsonGenerator.severityWeight "" = 1 ∧
    JsonGenerator.severityWeight "informational" = 1 ∧
    JsonGenerator.calculateRiskScore
      (List.replicate 5 ⟨"CVE-1", "dep", "1.0", "", "CRITICAL", "", ""⟩) = 100 ∧
    JsonGenerator.calculateRiskScore [] = 0 := by
  refine ⟨?_, by decide, by decide, by decide, by decide, by decide, by decide, by decide, by decide⟩
  intro vulns
  cases vulns with
  | nil => simp [JsonGenerator.calculateRiskScore]
  | cons v vs => simp [JsonGenerator.calculateRiskScore, foldl_weight_eq]

/-- Helper: the detector fold collects exactly one entry per firing finding. -/
theorem detect_foldl_eq (manifestData : Option Manifest)
    (reach : Option ReachabilityAnalyzer.ReachResults) (platform : String)
    (l : List Finding) : ∀ acc : List FalsePositiveDetector.FPEntry,
    l.foldl (fun acc vuln =>
      if (FalsePositiveDetector.analyzeVulnerability vuln manifestData reach
            platform).isFalsePositive then
        acc ++ [FalsePositiveDetector.fpEntryFor manifestData reach platform vuln]
      else acc) acc
    = acc ++ (l.filter (fun v =>
        (FalsePositiveDetector.analyzeVulnerability v manifestData reach
          platform).isFalsePositive)).map
        (FalsePositiveDetector.fpEntryFor manifestData reach platform) := by
  induction l with
  | nil => simp
  | cons v vs ih =>
    intro acc
    by_cases h : (FalsePositiveDetector.analyzeVulnerability v manifestData reach
        platform).isFalsePositive = true
    · simp [h, ih]
    · simp [h, ih]

/-- Helper: detectFalsePositives as a filter-and-map over the finding list. -/
theorem detectFalsePositives_eq (owaspData : OwaspData) (manifestData : Option Manifest)
    (reach : Option ReachabilityAnalyzer.ReachResults) (platform : String) :
    FalsePositiveDetector.detectFalsePositives owaspData manifestData reach platform
    = (owaspData.vulnerabilities.filter (fun v =>
        (FalsePositiveDetector.analyzeVulnerability v manifestData reach
          platform).isFalsePositive)).map
        (FalsePositiveDetector.fpEntryFor manifestData reach platform) := by
  unfold FalsePositiveDetector.detectFalsePositives
  simpa using detect_foldl_eq manifestData reach platform owaspData.vulnerabilities []

/-- C1. Partition completeness: in every pipeline run, the false-positive
bucket holds exactly the findings whose classification fires, the
true-vulnerability bucket exactly the rest, the two bucket lengths sum to the
number of findings, and the metadata counts agree with the buckets. -/
theorem partition_completeness (owaspData : OwaspData) (manifestData : Option Manifest)
    (callGraph : Option CallGraph) (runtimePlatform projectName : String) :
    let reach := ReachabilityAnalyzer.analyzeReachability owaspData manifestData callGraph
    let fires := fun v => (FalsePositiveDetector.analyzeVulnerability v manifestData
      (some reach) runtimePlatform).isFalsePositive
    let out := analysisPipeline owaspData manifestData callGraph runtimePlatform projectName
    out.false_positives.length = (owaspData.vulnerabilities.filter fires).length ∧
    out.true_vulnerabilities.length =
      (owaspData.vulnerabilities.filter (fun v => !(fires v))).length ∧
    out.false_positives.length + out.true_vulnerabilities.length =
      owaspData.vulnerabilities.length ∧
    out.metadata.total_vulnerabilities_scanned = owaspData.vulnerabilities.length ∧
    out.metadata.false_positives_identified = out.false_positives.length ∧
    out.metadata.true_vulnerabilities_found = out.true_vulnerabilities.length := by
  intro reach fires out
  have hfp : out.false_positives.length =
      (owaspData.vulnerabilities.filter fires).length := by
    simp [out, analysisPipeline, JsonGenerator.generateJsonOutput,
      JsonGenerator.formatFalsePositives, detectFalsePositives_eq, reach, fires]
  have htv : out.true_vulnerabilities.length =
      (owaspData.vulnerabilities.filter (fun v => !(fires v))).length := by
    simp [out, analysisPipeline, JsonGenerator.generateJsonOutput,
      JsonGenerator.formatTrueVulnerabilities, extractVulnerabilities, reach, fires]
  have hsum : (owaspData.vulnerabilities.filter fires).length +
      (owaspData.vulnerabilities.filter (fun v => !(fires v))).length =
      owaspData.vulnerabilities.length := by
    simpa [List.countP_eq_length_filter] using
      (List.length_eq_countP_add_countP fires owaspData.vulnerabilities).symm
  refine ⟨hfp, htv, by rw [hfp, htv]; exact hsum, ?_, ?_, ?_⟩
  · have : out.metadata.total_vulnerabilities_scanned =
        out.false_positives.length + out.true_vulnerabilities.length := by
      simp [out, analysisPipeline, JsonGenerator.generateJsonOutput,
        JsonGenerator.formatFalsePositives, JsonGenerator.formatTrueVulnerabilities]
    rw [this, hfp, htv]; exact hsum
  · simp [out, analysisPipeline, JsonGenerator.generateJsonOutput,
      JsonGenerator.formatFalsePositives]
  · simp [out, analysisPipeline, JsonGenerator.generateJsonOutput,
      JsonGenerator.formatTrueVulnerabilities]

/-- Does one manifest entry match the normalized search name, exactly or by
substring containment in either direction (the per-entry test of the matcher)? -/
def entryMatches (normalizedSearch : String) (p : String × DepValue) : Bool :=
  let normalizedName := normalizePackageName p.1
  normalizedName = normalizedSearch ||
    strIncludes normalizedName normalizedSearch ||
    strIncludes normalizedSearch normalizedName

/-- Helper: the matcher loop returns none exactly when no entry matches, and
otherwise returns the first matching entry, flagged partial unless its
normalized name is exactly the searched one. -/
theorem findMatchLoop_spec (ns : String) (deps : List (String × DepValue)) :
    (ReachabilityAnalyzer.findMatchLoop ns deps = none ↔
      ∀ p ∈ deps, entryMatches ns p = false) ∧
    (∀ r, ReachabilityAnalyzer.findMatchLoop ns deps = some r →
      ∃ pre info post, deps = pre ++ (r.name, info) :: post ∧
        (∀ p ∈ pre, entryMatches ns p = false) ∧
        entryMatches ns (r.name, info) = true ∧
        r.version = info.versionOf ∧ r.info = info ∧
        (r.partialMatch = false ↔ normalizePackageName r.name = ns)) := by
  induction deps with
  | nil => simp [ReachabilityAnalyzer.findMatchLoop]
  | cons p rest ih =>
    obtain ⟨name, info⟩ := p
    by_cases h1 : normalizePackageName name = ns
    · constructor
      · simp [ReachabilityAnalyzer.findMatchLoop, h1, entryMatches]
      · intro r hr
        simp only [ReachabilityAnalyzer.findMatchLoop, h1, if_true] at hr
        refine ⟨[], info, rest, ?_, ?_, ?_, ?_, ?_, ?_⟩ <;>
          simp_all [entryMatches, ReachabilityAnalyzer.findMatchLoop] <;>
          cases hr <;> simp [h1]
    · by_cases h2 : (strIncludes (normalizePackageName name) ns ||
          strIncludes ns (normalizePackageName name)) = true
      · have hsome : ReachabilityAnalyzer.findMatchLoop ns ((name, info) :: rest) =
            some ⟨name, info.versionOf, info, true⟩ := by
          simp [ReachabilityAnalyzer.findMatchLoop, h1, h2]
        constructor
        · rw [hsome]
          constructor
          · intro hc; cases hc
          · intro hall
            have := hall (name, info) (List.mem_cons_self _ _)
            rw [show entryMatches ns (name, info) = true by
              simp [entryMatches, h1, h2]] at this
            cases this
        · intro r hr
          rw [hsome] at hr
          cases hr
          refine ⟨[], info, rest, by simp, by simp, ?_, by simp, by simp, ?_⟩
          · simp [entryMatches, h1, h2]
          · simp [h1]
      · have h2' : strIncludes (normalizePackageName name) ns = false ∧
            strIncludes ns (normalizePackageName name) = false := by
          constructor <;> (revert h2; cases strIncludes (normalizePackageName name) ns <;>
            cases strIncludes ns (normalizePackageName name) <;> simp)
        constructor
        · rw [show ReachabilityAnalyzer.findMatchLoop ns ((name, info) :: rest) =
              ReachabilityAnalyzer.findMatchLoop ns rest by
            simp [ReachabilityAnalyzer.findMatchLoop, h1, h2]]
          rw [ih.1]
          constructor
          · intro hall
            intro q hq
            rcases List.mem_cons.mp hq with hq1 | hq2
            · subst hq1; simp [entryMatches, h1, h2'.1, h2'.2]
            · exact hall q hq2
          · intro hall q hq
            exact hall q (List.mem_cons_of_mem _ hq)
        · intro r hr
          rw [show ReachabilityAnalyzer.findMatchLoop ns ((name, info) :: rest) =
              ReachabilityAnalyzer.findMatchLoop ns rest by
            simp [ReachabilityAnalyzer.findMatchLoop, h1, h2]] at hr
          obtain ⟨pre, info', post, heq, hpre, hm, hv, hi, hp⟩ := ih.2 r hr
          refine ⟨(name, info) :: pre, info', post, by simp [heq], ?_, hm, hv, hi, hp⟩
          intro q hq
          rcases List.mem_cons.mp hq with hq1 | hq2
          · subst hq1; simp [entryMatches, h1, h2'.1, h2'.2]
          · exact hpre q hq2

/-- C4 counterexample: with the map listing a substring-matching entry before
an exactly-matching one, the matcher returns the earlier substring match
(flagged partial) although an exact normalized match exists in the map. -/
theorem exact_match_precedence_counterexample :
    (∃ p ∈ [("lodash.merge", DepValue.str "1.0.0"), ("lodash", DepValue.str "2.0.0")],
        normalizePackageName p.1 = normalizePackageName "lodash") ∧
    ReachabilityAnalyzer.findDependencyMatch "lodash"
        [("lodash.merge", DepValue.str "1.0.0"), ("lodash", DepValue.str "2.0.0")]
      = some ⟨"lodash.merge", "1.0.0", DepValue.str "1.0.0", true⟩ := by
  constructor
  · exact ⟨("lodash", DepValue.str "2.0.0"), by decide, by decide⟩
  · decide

/-- C4 amended: the matcher scans the manifest entries in map order and returns
the first entry that matches the normalized searched name exactly or by
substring containment in either direction, flagged partialMatch exactly when
the match is not exact — so an exact match wins only against substring matches
of entries that come later, not earlier; with no matching entry at all (and on
an empty search name) the matcher returns null. -/
theorem find_match_first_match_wins (depName : String)
    (deps : List (String × DepValue)) (h : depName ≠ "") :
    (ReachabilityAnalyzer.findDependencyMatch depName deps = none ↔
      ∀ p ∈ deps, entryMatches (normalizePackageName depName) p = false) ∧
    (∀ r, ReachabilityAnalyzer.findDependencyMatch depName deps = some r →
      ∃ pre info post, deps = pre ++ (r.name, info) :: post ∧
        (∀ p ∈ pre, entryMatches (normalizePackageName depName) p = false) ∧
        entryMatches (normalizePackageName depName) (r.name, info) = true ∧
        r.version = info.versionOf ∧ r.info = info ∧
        (r.partialMatch = false ↔
          normalizePackageName r.name = normalizePackageName depName)) := by
  have hd : ReachabilityAnalyzer.findDependencyMatch depName deps =
      ReachabilityAnalyzer.findMatchLoop (normalizePackageName depName) deps := by
    simp [ReachabilityAnalyzer.findDependencyMatch, h]
  rw [hd]
  exact findMatchLoop_spec (normalizePackageName depName) deps

/-- C4 amended, concrete instance discharging the nonempty-name hypothesis. -/
theorem find_match_first_match_wins_witness :
    ("express" : String) ≠ "" ∧
    ReachabilityAnalyzer.findDependencyMatch "express"
      [("левый", DepValue.str "0.1")] = none :=
  ⟨by decide, (find_match_first_match_wins "express" [("левый", DepValue.str "0.1")]
    (by decide)).1.mpr (by decide)⟩

/-- Helper: lookup after a cons. -/
theorem mapLookup_cons {α : Type} (p : String × α) (l : List (String × α)) (k : String) :
    mapLookup (p :: l) k = if p.1 = k then some p.2 else mapLookup l k := by
  by_cases h : p.1 = k <;> simp [mapLookup, List.find?_cons, h]

/-- Helper: lookup over an update-in-place map touches only the updated key. -/
theorem mapLookup_map_upd {α : Type} (l : List (String × α)) (k : String) (v : α)
    (k' : String) (hne : k' ≠ k) :
    mapLookup (l.map (fun p => if p.1 = k then (k, v) else p)) k' = mapLookup l k' := by
  induction l with
  | nil => simp [mapLookup]
  | cons p ps ih =>
    by_cases h : p.1 = k
    · rw [List.map_cons, h, if_pos rfl, mapLookup_cons, mapLookup_cons,
        if_neg (fun hc => hne hc.symm), if_neg (by rw [h]; exact fun hc => hne hc.symm), ih]
    · rw [List.map_cons, if_neg h, mapLookup_cons, mapLookup_cons, ih]

/-- Helper: lookup of the updated key in an update-in-place map. -/
theorem mapLookup_map_upd_self {α : Type} (l : List (String × α)) (k : String) (v : α)
    (hany : l.any (fun p => p.1 = k) = true) :
    mapLookup (l.map (fun p => if p.1 = k then (k, v) else p)) k = some v := by
  induction l with
  | nil => cases hany
  | cons p ps ih =>
    by_cases h : p.1 = k
    · rw [List.map_cons, h, if_pos rfl, mapLookup_cons, if_pos rfl]
    · rw [List.map_cons, if_neg h, mapLookup_cons, if_neg h]
      exact ih (by simpa [List.any_cons, h] using hany)

/-- Helper: lookup over an append. -/
theorem mapLookup_append {α : Type} (l₁ l₂ : List (String × α)) (k : String) :
    mapLookup (l₁ ++ l₂) k =
      match mapLookup l₁ k with
      | some v => some v
      | none => mapLookup l₂ k := by
  induction l₁ with
  | nil => simp [mapLookup]
  | cons p ps ih =>
    by_cases h : p.1 = k
    · rw [List.cons_append, mapLookup_cons, mapLookup_cons, if_pos h, if_pos h]
    · rw [List.cons_append, mapLookup_cons, mapLookup_cons, if_neg h, if_neg h, ih]

/-- Helper: lookup after an upsert sees the new value at the upserted key and
is unchanged elsewhere. -/
theorem mapLookup_mapUpsert {α : Type} (l : List (String × α)) (k : String) (v : α)
    (k' : String) :
    mapLookup (mapUpsert l k v) k' = if k' = k then some v else mapLookup l k' := by
  unfold mapUpsert
  by_cases hany : l.any (fun p => p.1 = k) = true
  · rw [if_pos hany]
    by_cases hk : k' = k
    · subst hk; rw [if_pos rfl]; exact mapLookup_map_upd_self l k' v hany
    · rw [if_neg hk]; exact mapLookup_map_upd l k v k' hk
  · rw [if_neg hany, mapLookup_append]
    by_cases hk : k' = k
    · subst hk
      have hfind : l.find? (fun p => p.1 = k') = none := by
        rw [List.find?_eq_none]
        intro p hp hc
        exact hany (List.any_eq_true.mpr ⟨p, hp, hc⟩)
      have hnone : mapLookup l k' = none := by
        rw [mapLookup, hfind]; rfl
      rw [hnone, if_pos rfl, mapLookup_cons, if_pos rfl]
    · rw [if_neg hk]
      cases hl : mapLookup l k' with
      | none =>
        show mapLookup [(k, v)] k' = none
        rw [mapLookup_cons, if_neg (fun hc => hk hc.symm)]
        rfl
      | some w => rfl

/-- Helper: find? distributes over an append, preferring the left list. -/
theorem find?_append_first {α : Type} (p : α → Bool) (l₁ l₂ : List α) :
    (l₁ ++ l₂).find? p =
      match l₁.find? p with
      | some w => some w
      | none => l₂.find? p := by
  induction l₁ with
  | nil => simp
  | cons a as ih =>
    by_cases h : p a = true
    · rw [List.cons_append, List.find?_cons_of_pos _ h, List.find?_cons_of_pos _ h]
    · have h' : ¬ p a := by simp [h]
      rw [List.cons_append, List.find?_cons_of_neg _ h', List.find?_cons_of_neg _ h', ih]

/-- Helper: after folding the manifest-branch loop over a finding list, the
map holds, for each cveId, the record of the last finding carrying it; findings
processed earlier with the same cveId are overwritten. -/
theorem reach_foldl_lookup (m : Manifest) (cg : Option CallGraph) (c : String) :
    ∀ (l : List Finding) (res : ReachabilityAnalyzer.ReachResults),
    mapLookup (l.foldl (ReachabilityAnalyzer.processVuln m cg) res).reachabilityMap c =
      match l.reverse.find? (fun v => v.cveId = c) with
      | some w => some (ReachabilityAnalyzer.manifestInfo m cg w)
      | none => mapLookup res.reachabilityMap c := by
  intro l
  induction l with
  | nil => intro res; simp
  | cons v vs ih =>
    intro res
    rw [List.foldl_cons, ih]
    have hstep : mapLookup (ReachabilityAnalyzer.processVuln m cg res v).reachabilityMap c =
        if c = v.cveId then some (ReachabilityAnalyzer.manifestInfo m cg v)
        else mapLookup res.reachabilityMap c := by
      rw [show (ReachabilityAnalyzer.processVuln m cg res v).reachabilityMap =
          mapUpsert res.reachabilityMap v.cveId (ReachabilityAnalyzer.manifestInfo m cg v)
          from rfl]
      exact mapLookup_mapUpsert _ _ _ _
    rw [List.reverse_cons, find?_append_first]
    cases hf : vs.reverse.find? (fun v => v.cveId = c) with
    | some w => rfl
    | none =>
      by_cases hv : v.cveId = c
      · rw [List.find?_cons_of_pos _ (by simpa using hv)]
        rw [hstep, if_pos hv.symm]
      · rw [List.find?_cons_of_neg _ (by simpa using hv)]
        rw [hstep, if_neg (fun hc => hv hc.symm)]
        simp

/-- C5 counterexample: two findings in one run share a cveId but name different
dependencies (dev-only alpha, production beta); the analyzer retains a single
reachability record for them, the later finding's, and the classifier's record
lookup for the first finding returns the second finding's record rather than
the record computed for the first finding (which differs). -/
theorem record_per_finding_identity_counterexample :
    (Finding.mk "CVE-1" "alpha" "1.0.0" "" "LOW" "" "").cveId =
      (Finding.mk "CVE-1" "beta" "1.0.0" "" "LOW" "" "").cveId ∧
    (Finding.mk "CVE-1" "alpha" "1.0.0" "" "LOW" "" "").dependency ≠
      (Finding.mk "CVE-1" "beta" "1.0.0" "" "LOW" "" "").dependency ∧
    (ReachabilityAnalyzer.analyzeReachability
        ⟨[Finding.mk "CVE-1" "alpha" "1.0.0" "" "LOW" "" "",
          Finding.mk "CVE-1" "beta" "1.0.0" "" "LOW" "" ""]⟩
        (some ⟨"npm",
          [("alpha", DepValue.obj "1.0.0" true false),
           ("beta", DepValue.obj "1.0.0" false false)],
          [("beta", "1.0.0")], [("alpha", "1.0.0")]⟩)
        none).reachabilityMap.length = 1 ∧
    FalsePositiveDetector.reachInfoFor
        (some (ReachabilityAnalyzer.analyzeReachability
          ⟨[Finding.mk "CVE-1" "alpha" "1.0.0" "" "LOW" "" "",
            Finding.mk "CVE-1" "beta" "1.0.0" "" "LOW" "" ""]⟩
          (some ⟨"npm",
            [("alpha", DepValue.obj "1.0.0" true false),
             ("beta", DepValue.obj "1.0.0" false false)],
            [("beta", "1.0.0")], [("alpha", "1.0.0")]⟩)
          none))
        (Finding.mk "CVE-1" "alpha" "1.0.0" "" "LOW" "" "")
      = some (ReachabilityAnalyzer.manifestInfo
          ⟨"npm",
            [("alpha", DepValue.obj "1.0.0" true false),
             ("beta", DepValue.obj "1.0.0" false false)],
            [("beta", "1.0.0")], [("alpha", "1.0.0")]⟩
          none
          (Finding.mk "CVE-1" "beta" "1.0.0" "" "LOW" "" "")) ∧
    ReachabilityAnalyzer.manifestInfo
        ⟨"npm",
          [("alpha", DepValue.obj "1.0.0" true false),
           ("beta", DepValue.obj "1.0.0" false false)],
          [("beta", "1.0.0")], [("alpha", "1.0.0")]⟩
        none (Finding.mk "CVE-1" "alpha" "1.0.0" "" "LOW" "" "")
      ≠ ReachabilityAnalyzer.manifestInfo
        ⟨"npm",
          [("alpha", DepValue.obj "1.0.0" true false),
           ("beta", DepValue.obj "1.0.0" false false)],
          [("beta", "1.0.0")], [("alpha", "1.0.0")]⟩
        none (Finding.mk "CVE-1" "beta" "1.0.0" "" "LOW" "" "") := by
  refine ⟨by decide, by decide, by decide, by decide, by decide⟩

/-- C5 amended: reachability records are keyed by cveId alone, not by the
cveId-and-dependency finding identity: for any run with a manifest, looking up
a cveId in the reachability map yields exactly the record computed for the last
finding in the list that carries that cveId (records of earlier findings with
the same cveId are overwritten, and the classifier, which consults the map by
cveId, reads that shared record for every such finding). -/
theorem reachability_records_keyed_by_cveId (owaspData : OwaspData) (m : Manifest)
    (cg : Option CallGraph) (c : String) :
    mapLookup (ReachabilityAnalyzer.analyzeReachability owaspData
        (some m) cg).reachabilityMap c =
      match owaspData.vulnerabilities.reverse.find? (fun v => v.cveId = c) with
      | some w => some (ReachabilityAnalyzer.manifestInfo m cg w)
      | none => none := by
  rw [show ReachabilityAnalyzer.analyzeReachability owaspData (some m) cg =
      owaspData.vulnerabilities.foldl (ReachabilityAnalyzer.processVuln m cg)
        ReachabilityAnalyzer.emptyResults from rfl]
  rw [reach_foldl_lookup]
  cases owaspData.vulnerabilities.reverse.find? (fun v => v.cveId = c) with
  | some w => rfl
  | none => rfl

/-- C3 counterexample: a finding in a test-fixture path analyzed without a
manifest (and without a call graph) gets a record with isReachable = true and
MEDIUM confidence — the non-production path does not force unreachability when
no manifest is supplied, contradicting the claimed manifest-independence. -/
theorem nonprod_dominance_counterexample :
    ReachabilityAnalyzer.classifyPath "src/test/fixtures/vuln.js" = "non_prod" ∧
    mapLookup (ReachabilityAnalyzer.analyzeReachability
        ⟨[Finding.mk "CVE-7" "lodash" "1.0.0" "" "HIGH" "" "src/test/fixtures/vuln.js"]⟩
        none none).reachabilityMap "CVE-7"
      = some (ReachabilityAnalyzer.noManifestInfo
          (Finding.mk "CVE-7" "lodash" "1.0.0" "" "HIGH" "" "src/test/fixtures/vuln.js") none) ∧
    (ReachabilityAnalyzer.noManifestInfo
        (Finding.mk "CVE-7" "lodash" "1.0.0" "" "HIGH" "" "src/test/fixtures/vuln.js")
        none).isReachable = true ∧
    (ReachabilityAnalyzer.noManifestInfo
        (Finding.mk "CVE-7" "lodash" "1.0.0" "" "HIGH" "" "src/test/fixtures/vuln.js")
        none).confidence = "MEDIUM" := by
  refine ⟨by decide, by decide, by decide, by decide⟩

/-- Helper: overrides 2 to 6 never change the path classification, so the
record entering the non-production override still carries the finding's
classified path. -/
theorem steps_preserve_path (vuln : Finding) (d : Option ReachabilityAnalyzer.DepMatch)
    (c : Option ReachabilityAnalyzer.CGResult) (b1 b2 b3 : Bool) :
    (ReachabilityAnalyzer.stepTransitive b3
      (ReachabilityAnalyzer.stepProd b2
        (ReachabilityAnalyzer.stepDevOnly b1
          (ReachabilityAnalyzer.stepCallGraph c
            (ReachabilityAnalyzer.stepDirect d
              (ReachabilityAnalyzer.baselineInfo vuln)))))).pathClassification =
      ReachabilityAnalyzer.classifyPath vuln.filePath := by
  cases d <;> cases c <;> cases b1 <;> cases b2 <;> cases b3 <;> rfl

/-- Helper: the last two overrides on a non-production record force
unreachability, at MEDIUM confidence when the optional rule fires and HIGH
otherwise. -/
theorem stepFinal_spec (cond : Bool) (info : ReachabilityAnalyzer.ReachabilityInfo)
    (h : info.pathClassification = "non_prod") :
    (ReachabilityAnalyzer.stepOptional cond
      (ReachabilityAnalyzer.stepNonProd info)).isReachable = false ∧
    (ReachabilityAnalyzer.stepOptional cond
      (ReachabilityAnalyzer.stepNonProd info)).confidence =
      (if cond then "MEDIUM" else "HIGH") := by
  cases cond <;>
    simp [ReachabilityAnalyzer.stepOptional, ReachabilityAnalyzer.stepNonProd, h]

/-- C3 amended: a non-production path forces isReachable = false only when a
manifest is supplied; there the override beats call-graph evidence and
production-dependency status, at HIGH confidence unless the subsequent
optional-dependency rule (matched entry optional and no production match)
lowers it to MEDIUM. Without a manifest the record keeps the call-graph verdict
(defaulting to reachable), and a non-production path only sets MEDIUM
confidence when there is no call-graph evidence. -/
theorem nonprod_dominance_requires_manifest (m : Manifest) (cg : Option CallGraph)
    (vuln : Finding)
    (h : ReachabilityAnalyzer.classifyPath vuln.filePath = "non_prod") :
    (ReachabilityAnalyzer.manifestInfo m cg vuln).isReachable = false ∧
    (ReachabilityAnalyzer.manifestInfo m cg vuln).confidence =
      (if ((match ReachabilityAnalyzer.findDependencyMatch
              (ReachabilityAnalyzer.extractPackageName vuln.dependency)
              m.dependencies with
            | some dm => dm.info.optionalOf
            | none => false) &&
            (ReachabilityAnalyzer.findDependencyMatch
              (ReachabilityAnalyzer.extractPackageName vuln.dependency)
              (ReachabilityAnalyzer.strMap m.productionDependencies)).isNone) = true
       then "MEDIUM" else "HIGH") ∧
    (ReachabilityAnalyzer.noManifestInfo vuln cg).isReachable =
      (ReachabilityAnalyzer.assessCallGraphReachability vuln cg).elim true
        (fun r => r.isReachable) ∧
    (ReachabilityAnalyzer.assessCallGraphReachability vuln cg = none →
      (ReachabilityAnalyzer.noManifestInfo vuln cg).isReachable = true ∧
      (ReachabilityAnalyzer.noManifestInfo vuln cg).confidence = "MEDIUM") := by
  refine ⟨?_, ?_, ?_, ?_⟩
  · show (ReachabilityAnalyzer.stepOptional _ (ReachabilityAnalyzer.stepNonProd _)).isReachable = false
    exact (stepFinal_spec _ _ (by rw [steps_preserve_path]; exact h)).1
  · show (ReachabilityAnalyzer.stepOptional _ (ReachabilityAnalyzer.stepNonProd _)).confidence = _
    exact (stepFinal_spec _ _ (by rw [steps_preserve_path]; exact h)).2
  · cases hcg : ReachabilityAnalyzer.assessCallGraphReachability vuln cg <;>
      simp [ReachabilityAnalyzer.noManifestInfo, hcg]
  · intro h0
    simp [ReachabilityAnalyzer.noManifestInfo, h0, h, jsOrStr]

/-- C3 amended, concrete instance: a direct production dependency with active
call-graph edge evidence, located in a test path, is still forced unreachable
at HIGH confidence once a manifest is present. -/
theorem nonprod_dominance_requires_manifest_witness :
    ReachabilityAnalyzer.classifyPath "src/test/app.js" = "non_prod" ∧
    (ReachabilityAnalyzer.manifestInfo
        ⟨"npm", [("lodash", DepValue.obj "1.0.0" false false)], [("lodash", "1.0.0")], []⟩
        (some ⟨some [⟨some "lodash", none⟩], none,
          some [⟨some "lodash", none, some "app", none⟩], none⟩)
        (Finding.mk "CVE-3" "lodash" "1.0.0" "" "HIGH" "" "src/test/app.js")).isReachable
      = false ∧
    (ReachabilityAnalyzer.manifestInfo
        ⟨"npm", [("lodash", DepValue.obj "1.0.0" false false)], [("lodash", "1.0.0")], []⟩
        (some ⟨some [⟨some "lodash", none⟩], none,
          some [⟨some "lodash", none, some "app", none⟩], none⟩)
        (Finding.mk "CVE-3" "lodash" "1.0.0" "" "HIGH" "" "src/test/app.js")).confidence
      = "HIGH" := by
  refine ⟨by decide, ?_, ?_⟩
  · exact (nonprod_dominance_requires_manifest
      ⟨"npm", [("lodash", DepValue.obj "1.0.0" false false)], [("lodash", "1.0.0")], []⟩
      (some ⟨some [⟨some "lodash", none⟩], none,
        some [⟨some "lodash", none, some "app", none⟩], none⟩)
      (Finding.mk "CVE-3" "lodash" "1.0.0" "" "HIGH" "" "src/test/app.js")
      (by decide)).1
  · rw [(nonprod_dominance_requires_manifest
      ⟨"npm", [("lodash", DepValue.obj "1.0.0" false false)], [("lodash", "1.0.0")], []⟩
      (some ⟨some [⟨some "lodash", none⟩], none,
        some [⟨some "lodash", none, some "app", none⟩], none⟩)
      (Finding.mk "CVE-3" "lodash" "1.0.0" "" "HIGH" "" "src/test/app.js")
      (by decide)).2.1]
    decide

/-- C2 counterexample: lodash is present only in devDependencies (not in
productionDependencies), yet because the manifest's dependency map declares
version 1.0.0 while the finding reports 2.0.0, the earlier version-mismatch
check fires first and the finding is classified VERSION_MISMATCH at MEDIUM
confidence — not DEV_ONLY at HIGH. -/
theorem dev_only_dominance_counterexample :
    (Manifest.mk "npm" [("lodash", DepValue.obj "1.0.0" true false)] []
        [("lodash", "1.0.0")]).devDependencies.any (fun p =>
      normalizePackageName p.1 = normalizePackageName
        (FalsePositiveDetector.extractPackageName "lodash")) = true ∧
    (Manifest.mk "npm" [("lodash", DepValue.obj "1.0.0" true false)] []
        [("lodash", "1.0.0")]).productionDependencies.any (fun p =>
      normalizePackageName p.1 = normalizePackageName
        (FalsePositiveDetector.extractPackageName "lodash")) = false ∧
    (FalsePositiveDetector.analyzeVulnerability
        (Finding.mk "CVE-X" "lodash" "2.0.0" "" "CRITICAL" "" "")
        (some (Manifest.mk "npm" [("lodash", DepValue.obj "1.0.0" true false)] []
          [("lodash", "1.0.0")]))
        none "linux").isFalsePositive = true ∧
    (FalsePositiveDetector.analyzeVulnerability
        (Finding.mk "CVE-X" "lodash" "2.0.0" "" "CRITICAL" "" "")
        (some (Manifest.mk "npm" [("lodash", DepValue.obj "1.0.0" true false)] []
          [("lodash", "1.0.0")]))
        none "linux").reason = some "VERSION_MISMATCH" ∧
    (FalsePositiveDetector.analyzeVulnerability
        (Finding.mk "CVE-X" "lodash" "2.0.0" "" "CRITICAL" "" "")
        (some (Manifest.mk "npm" [("lodash", DepValue.obj "1.0.0" true false)] []
          [("lodash", "1.0.0")]))
        none "linux").confidence = "MEDIUM" := by
  refine ⟨by decide, by decide, by decide, by decide, by decide⟩

/-- C2 amended: a dependency listed (by normalized name) only among the
manifest's devDependencies and not among its productionDependencies is
classified DEV_ONLY at HIGH confidence regardless of the finding's severity
and of any reachability record or call-graph evidence — provided neither the
version-mismatch check nor the environment-mismatch check fires first. -/
theorem dev_only_dominance_after_earlier_checks (vuln : Finding) (m : Manifest)
    (reach : Option ReachabilityAnalyzer.ReachResults) (platform : String)
    (hdev : m.devDependencies.any (fun p =>
      normalizePackageName p.1 = normalizePackageName
        (FalsePositiveDetector.extractPackageName vuln.dependency)) = true)
    (hprod : m.productionDependencies.any (fun p =>
      normalizePackageName p.1 = normalizePackageName
        (FalsePositiveDetector.extractPackageName vuln.dependency)) = false)
    (hver : (FalsePositiveDetector.checkVersionMismatch vuln
      (some m)).isFalsePositive = false)
    (henv : (FalsePositiveDetector.checkEnvironmentMismatch vuln (some m)
      platform).isFalsePositive = false) :
    (FalsePositiveDetector.analyzeVulnerability vuln (some m) reach
      platform).isFalsePositive = true ∧
    (FalsePositiveDetector.analyzeVulnerability vuln (some m) reach
      platform).reason = some "DEV_ONLY" ∧
    (FalsePositiveDetector.analyzeVulnerability vuln (some m) reach
      platform).confidence = "HIGH" := by
  have hd : (FalsePositiveDetector.checkDevOnlyDependency vuln (some m)
        reach).isFalsePositive = true ∧
      (FalsePositiveDetector.checkDevOnlyDependency vuln (some m)
        reach).reason = some "DEV_ONLY" ∧
      (FalsePositiveDetector.checkDevOnlyDependency vuln (some m)
        reach).confidence = "HIGH" := by
    by_cases hr : jsTruthy ((FalsePositiveDetector.reachInfoFor reach vuln).map
        (fun i => jsTruthy i.isDevDependency)) = true
    · refine ⟨?_, ?_, ?_⟩ <;>
        simp [FalsePositiveDetector.checkDevOnlyDependency, hr]
    · refine ⟨?_, ?_, ?_⟩ <;>
        simp [FalsePositiveDetector.checkDevOnlyDependency, hr, hdev, hprod]
  refine ⟨?_, ?_, ?_⟩ <;>
    simp [FalsePositiveDetector.analyzeVulnerability, hver, henv,
      hd.1, hd.2.1, hd.2.2]

/-- C2 amended, concrete instance: a CRITICAL finding against a dev-only
dependency with matching versions is classified DEV_ONLY at HIGH confidence. -/
theorem dev_only_dominance_witness :
    (FalsePositiveDetector.analyzeVulnerability
        (Finding.mk "CVE-Y" "mocha" "1.0.0" "" "CRITICAL" "" "")
        (some (Manifest.mk "npm" [("mocha", DepValue.obj "1.0.0" true false)] []
          [("mocha", "1.0.0")]))
        none "linux").isFalsePositive = true ∧
    (FalsePositiveDetector.analyzeVulnerability
        (Finding.mk "CVE-Y" "mocha" "1.0.0" "" "CRITICAL" "" "")
        (some (Manifest.mk "npm" [("mocha", DepValue.obj "1.0.0" true false)] []
          [("mocha", "1.0.0")]))
        none "linux").reason = some "DEV_ONLY" ∧
    (FalsePositiveDetector.analyzeVulnerability
        (Finding.mk "CVE-Y" "mocha" "1.0.0" "" "CRITICAL" "" "")
        (some (Manifest.mk "npm" [("mocha", DepValue.obj "1.0.0" true false)] []
          [("mocha", "1.0.0")]))
        none "linux").confidence = "HIGH" :=
  dev_only_dominance_after_earlier_checks
    (Finding.mk "CVE-Y" "mocha" "1.0.0" "" "CRITICAL" "" "")
    (Manifest.mk "npm" [("mocha", DepValue.obj "1.0.0" true false)] []
      [("mocha", "1.0.0")])
    none "linux" (by decide) (by decide) (by decide) (by decide)

/-- C6. Call-graph evidence mapping: with a call graph supplied, the assessor
returns isReachable = false at HIGH confidence exactly when no node's name/id
normalizes to the dependency's normalized name and no (normalized) edge
endpoint contains that normalized name as a substring; otherwise it returns
isReachable = true, at HIGH confidence when an edge references the dependency
and at MEDIUM when only a node does. -/
theorem call_graph_evidence_mapping (vuln : Finding) (g : CallGraph)
    (r : ReachabilityAnalyzer.CGResult)
    (hr : ReachabilityAnalyzer.assessCallGraphReachability vuln (some g) = some r) :
    ((r.isReachable = false ∧ r.confidence = "HIGH") ↔
      (g.nodeList.any (fun node =>
        normalizePackageName (jsOrStr node.name (jsOrStr node.id "")) =
          normalizePackageName
            (ReachabilityAnalyzer.extractPackageName vuln.dependency)) = false ∧
       g.edgeList.any (fun edge =>
        strIncludes (normalizePackageName (jsOrStr edge.«from» (jsOrStr edge.source "")))
          (normalizePackageName
            (ReachabilityAnalyzer.extractPackageName vuln.dependency)) ||
        strIncludes (normalizePackageName (jsOrStr edge.«to» (jsOrStr edge.target "")))
          (normalizePackageName
            (ReachabilityAnalyzer.extractPackageName vuln.dependency))) = false)) ∧
    (g.edgeList.any (fun edge =>
        strIncludes (normalizePackageName (jsOrStr edge.«from» (jsOrStr edge.source "")))
          (normalizePackageName
            (ReachabilityAnalyzer.extractPackageName vuln.dependency)) ||
        strIncludes (normalizePackageName (jsOrStr edge.«to» (jsOrStr edge.target "")))
          (normalizePackageName
            (ReachabilityAnalyzer.extractPackageName vuln.dependency))) = true →
      r.isReachable = true ∧ r.confidence = "HIGH") ∧
    (g.edgeList.any (fun edge =>
        strIncludes (normalizePackageName (jsOrStr edge.«from» (jsOrStr edge.source "")))
          (normalizePackageName
            (ReachabilityAnalyzer.extractPackageName vuln.dependency)) ||
        strIncludes (normalizePackageName (jsOrStr edge.«to» (jsOrStr edge.target "")))
          (normalizePackageName
            (ReachabilityAnalyzer.extractPackageName vuln.dependency))) = false →
     g.nodeList.any (fun node =>
        normalizePackageName (jsOrStr node.name (jsOrStr node.id "")) =
          normalizePackageName
            (ReachabilityAnalyzer.extractPackageName vuln.dependency)) = true →
      r.isReachable = true ∧ r.confidence = "MEDIUM") := by
  cases hn : g.nodeList.any (fun node =>
      normalizePackageName (jsOrStr node.name (jsOrStr node.id "")) =
        normalizePackageName
          (ReachabilityAnalyzer.extractPackageName vuln.dependency)) <;>
  cases he : g.edgeList.any (fun edge =>
      strIncludes (normalizePackageName (jsOrStr edge.«from» (jsOrStr edge.source "")))
        (normalizePackageName
          (ReachabilityAnalyzer.extractPackageName vuln.dependency)) ||
      strIncludes (normalizePackageName (jsOrStr edge.«to» (jsOrStr edge.target "")))
        (normalizePackageName
          (ReachabilityAnalyzer.extractPackageName vuln.dependency))) <;>
  · simp only [ReachabilityAnalyzer.assessCallGraphReachability, hn, he, Bool.not_true,
      Bool.not_false, Bool.and_true, Bool.and_false, Bool.and_self, if_true, if_false,
      Bool.false_eq_true, Bool.true_eq_false, ite_true, ite_false, Option.some.injEq] at hr
    subst hr
    refine ⟨?_, ?_, ?_⟩ <;> simp only [hn, he] <;> simp

/-- C6, concrete instance: an edge target containing the dependency name gives
a reachable verdict at HIGH confidence. -/
theorem call_graph_evidence_mapping_witness :
    (ReachabilityAnalyzer.assessCallGraphReachability
        (Finding.mk "CVE-6" "lodash" "1.0.0" "" "LOW" "" "")
        (some (CallGraph.mk (some [CGNode.mk (some "app") none]) none
          (some [CGEdge.mk (some "app") none (some "lodash.core") none]) none))).map
      (fun r => (r.isReachable, r.confidence)) = some (true, "HIGH") := by
  have h := (call_graph_evidence_mapping
    (Finding.mk "CVE-6" "lodash" "1.0.0" "" "LOW" "" "")
    (CallGraph.mk (some [CGNode.mk (some "app") none]) none
      (some [CGEdge.mk (some "app") none (some "lodash.core") none]) none)
    ⟨true, "HIGH",
      "Call graph analysis: vulnerable component is referenced in application call graph",
      "Call graph contains references to the vulnerable component"⟩
    (by decide)).2.1 (by decide)
  rw [show ReachabilityAnalyzer.assessCallGraphReachability
      (Finding.mk "CVE-6" "lodash" "1.0.0" "" "LOW" "" "")
      (some (CallGraph.mk (some [CGNode.mk (some "app") none]) none
        (some [CGEdge.mk (some "app") none (some "lodash.core") none]) none))
    = some ⟨true, "HIGH",
      "Call graph analysis: vulnerable component is referenced in application call graph",
      "Call graph contains references to the vulnerable component"⟩ from by decide]
  show some (_, _) = some (true, "HIGH")
  rw [h.1, h.2]

/-- Does the version-mismatch loop fire on one manifest entry: a normalized
name match with both versions present and not matching? -/
def vmFires (depName reportedVersion : String) (p : String × DepValue) : Bool :=
  normalizePackageName p.1 = normalizePackageName depName &&
    p.2.versionOf ≠ "" && reportedVersion ≠ "" &&
    !versionsMatch p.2.versionOf reportedVersion

/-- Helper: on the first firing entry, the version-mismatch loop classifies the
finding with confidence decided by the numeric direction of the two versions. -/
theorem versionLoop_fires_spec (depName reportedVersion name : String) (info : DepValue)
    (post : List (String × DepValue))
    (hfire : vmFires depName reportedVersion (name, info) = true) :
    ∀ pre : List (String × DepValue), (∀ p ∈ pre, vmFires depName reportedVersion p = false) →
    (FalsePositiveDetector.versionLoop depName reportedVersion
        (pre ++ (name, info) :: post)).isFalsePositive = true ∧
    (FalsePositiveDetector.versionLoop depName reportedVersion
        (pre ++ (name, info) :: post)).reason = some "VERSION_MISMATCH" ∧
    (FalsePositiveDetector.versionLoop depName reportedVersion
        (pre ++ (name, info) :: post)).confidence =
      (if FalsePositiveDetector.isHigherVersion info.versionOf reportedVersion
        then "HIGH" else "MEDIUM") := by
  intro pre
  induction pre with
  | nil =>
    intro _
    rw [List.nil_append]
    have hfire' : (normalizePackageName name = normalizePackageName depName &&
        info.versionOf ≠ "" && reportedVersion ≠ "" &&
        !versionsMatch info.versionOf reportedVersion) = true := hfire
    refine ⟨?_, ?_, ?_⟩ <;>
      (simp only [FalsePositiveDetector.versionLoop, hfire', if_true]
       cases hh : FalsePositiveDetector.isHigherVersion info.versionOf reportedVersion <;>
        simp [hh])
  | cons q qs ih =>
    intro hpre
    have hq : vmFires depName reportedVersion q = false :=
      hpre q (List.mem_cons_self _ _)
    have hqs : ∀ p ∈ qs, vmFires depName reportedVersion p = false :=
      fun p hp => hpre p (List.mem_cons_of_mem _ hp)
    obtain ⟨qn, qi⟩ := q
    have hq' : (normalizePackageName qn = normalizePackageName depName &&
        qi.versionOf ≠ "" && reportedVersion ≠ "" &&
        !versionsMatch qi.versionOf reportedVersion) = false := hq
    have hloop : FalsePositiveDetector.versionLoop depName reportedVersion
        ((qn, qi) :: (qs ++ (name, info) :: post)) =
        FalsePositiveDetector.versionLoop depName reportedVersion
          (qs ++ (name, info) :: post) := by
      simp only [FalsePositiveDetector.versionLoop, hq', if_false, Bool.false_eq_true]
    rw [List.cons_append, hloop]
    exact ih hqs

/-- C7. Version-mismatch direction: when the first manifest entry on which the
version-mismatch check fires declares a version that does not match the
finding's reported version, the resulting VERSION_MISMATCH false positive has
HIGH confidence exactly when the declared version is component-wise numerically
greater than the reported one (isHigherVersion), and MEDIUM otherwise; in
particular 2.0.0 against reported 1.5.0 is numerically greater and 1.0.0
against 1.5.0 is not. -/
theorem version_mismatch_direction (vuln : Finding) (m : Manifest)
    (pre post : List (String × DepValue)) (name : String) (info : DepValue)
    (hdeps : m.dependencies = pre ++ (name, info) :: post)
    (hpre : ∀ p ∈ pre, vmFires (FalsePositiveDetector.extractPackageName vuln.dependency)
      (jsOrStr (some vuln.version) vuln.reportedVersion) p = false)
    (hfire : vmFires (FalsePositiveDetector.extractPackageName vuln.dependency)
      (jsOrStr (some vuln.version) vuln.reportedVersion) (name, info) = true) :
    (FalsePositiveDetector.checkVersionMismatch vuln (some m)).isFalsePositive = true ∧
    (FalsePositiveDetector.checkVersionMismatch vuln (some m)).reason =
      some "VERSION_MISMATCH" ∧
    (FalsePositiveDetector.checkVersionMismatch vuln (some m)).confidence =
      (if FalsePositiveDetector.isHigherVersion info.versionOf
          (jsOrStr (some vuln.version) vuln.reportedVersion)
        then "HIGH" else "MEDIUM") ∧
    FalsePositiveDetector.isHigherVersion "2.0.0" "1.5.0" = true ∧
    FalsePositiveDetector.isHigherVersion "1.0.0" "1.5.0" = false := by
  have hmain := versionLoop_fires_spec
    (FalsePositiveDetector.extractPackageName vuln.dependency)
    (jsOrStr (some vuln.version) vuln.reportedVersion) name info post hfire pre hpre
  have hcvm : FalsePositiveDetector.checkVersionMismatch vuln (some m) =
      FalsePositiveDetector.versionLoop
        (FalsePositiveDetector.extractPackageName vuln.dependency)
        (jsOrStr (some vuln.version) vuln.reportedVersion)
        (pre ++ (name, info) :: post) := by
    rw [show FalsePositiveDetector.checkVersionMismatch vuln (some m) =
        FalsePositiveDetector.versionLoop
          (FalsePositiveDetector.extractPackageName vuln.dependency)
          (jsOrStr (some vuln.version) vuln.reportedVersion) m.dependencies from rfl,
      hdeps]
  rw [hcvm]
  exact ⟨hmain.1, hmain.2.1, hmain.2.2, by decide, by decide⟩

/-- C7, concrete instances matching the claim's two examples: manifest 2.0.0
against reported 1.5.0 fires at HIGH, manifest 1.0.0 against reported 1.5.0
fires at MEDIUM. -/
theorem version_mismatch_direction_witness :
    (FalsePositiveDetector.checkVersionMismatch
        (Finding.mk "CVE-8" "lodash" "1.5.0" "" "LOW" "" "")
        (some (Manifest.mk "npm" [("lodash", DepValue.obj "2.0.0" false false)]
          [("lodash", "2.0.0")] []))).confidence = "HIGH" ∧
    (FalsePositiveDetector.checkVersionMismatch
        (Finding.mk "CVE-9" "lodash" "1.5.0" "" "LOW" "" "")
        (some (Manifest.mk "npm" [("lodash", DepValue.obj "1.0.0" false false)]
          [("lodash", "1.0.0")] []))).confidence = "MEDIUM" := by
  constructor
  · rw [(version_mismatch_direction
      (Finding.mk "CVE-8" "lodash" "1.5.0" "" "LOW" "" "")
      (Manifest.mk "npm" [("lodash", DepValue.obj "2.0.0" false false)]
        [("lodash", "2.0.0")] [])
      [] [] "lodash" (DepValue.obj "2.0.0" false false)
      (by decide) (by decide) (by decide)).2.2.1]
    decide
  · rw [(version_mismatch_direction
      (Finding.mk "CVE-9" "lodash" "1.5.0" "" "LOW" "" "")
      (Manifest.mk "npm" [("lodash", DepValue.obj "1.0.0" false false)]
        [("lodash", "1.0.0")] [])
      [] [] "lodash" (DepValue.obj "1.0.0" false false)
      (by decide) (by decide) (by decide)).2.2.1]
    decide

/-- Helper: the environment-mismatch check always carries the ENV_MISMATCH
reason code, fired or not. -/
theorem env_reason (vuln : Finding) (md : Option Manifest) (platform : String) :
    (FalsePositiveDetector.checkEnvironmentMismatch vuln md platform).reason =
      some "ENV_MISMATCH" := by
  simp only [FalsePositiveDetector.checkEnvironmentMismatch]
  repeat' split
  all_goals rfl

/-- Helper: the reachability check always carries the NON_REACHABLE reason
code, fired or not. -/
theorem reach_reason (vuln : Finding)
    (reach : Option ReachabilityAnalyzer.ReachResults) :
    (FalsePositiveDetector.checkReachability vuln reach).reason =
      some "NON_REACHABLE" := by
  unfold FalsePositiveDetector.checkReachability
  repeat' split
  all_goals rfl

/-- C9. No manifest implies no manifest-dependent reasons: without a manifest
a firing classification is never DEV_ONLY or VERSION_MISMATCH; and the false
positive rate is the rounded percentage of false positives over the total,
zero when nothing was scanned. -/
theorem no_manifest_no_dev_or_version_reasons :
    (∀ (vuln : Finding) (reach : Option ReachabilityAnalyzer.ReachResults)
        (platform : String),
      (FalsePositiveDetector.analyzeVulnerability vuln none reach
        platform).isFalsePositive = true →
      (FalsePositiveDetector.analyzeVulnerability vuln none reach
        platform).reason ≠ some "DEV_ONLY" ∧
      (FalsePositiveDetector.analyzeVulnerability vuln none reach
        platform).reason ≠ some "VERSION_MISMATCH") ∧
    (∀ fpCount trueCount : Nat, fpCount + trueCount ≠ 0 →
      JsonGenerator.calculateFpRate fpCount trueCount =
        round ((100 * (fpCount : ℚ)) / ((fpCount : ℚ) + (trueCount : ℚ)))) ∧
    JsonGenerator.calculateFpRate 0 0 = 0 := by
  refine ⟨?_, ?_, by decide⟩
  · intro vuln reach platform hfp
    by_cases he : (FalsePositiveDetector.checkEnvironmentMismatch vuln none
        platform).isFalsePositive = true
    · have hres : FalsePositiveDetector.analyzeVulnerability vuln none reach platform =
          FalsePositiveDetector.checkEnvironmentMismatch vuln none platform := by
        simp [FalsePositiveDetector.analyzeVulnerability, he,
          FalsePositiveDetector.checkVersionMismatch,
          FalsePositiveDetector.defaultResult]
      rw [hres, env_reason]
      exact ⟨by decide, by decide⟩
    · by_cases hrc : (FalsePositiveDetector.checkReachability vuln
          reach).isFalsePositive = true
      · have hres : FalsePositiveDetector.analyzeVulnerability vuln none reach platform =
            FalsePositiveDetector.checkReachability vuln reach := by
          simp [FalsePositiveDetector.analyzeVulnerability, he, hrc,
            FalsePositiveDetector.checkVersionMismatch,
            FalsePositiveDetector.checkDevOnlyDependency,
            FalsePositiveDetector.defaultResult]
        rw [hres, reach_reason]
        exact ⟨by decide, by decide⟩
      · exfalso
        have hres : (FalsePositiveDetector.analyzeVulnerability vuln none reach
            platform).isFalsePositive = false := by
          simp [FalsePositiveDetector.analyzeVulnerability, he, hrc,
            FalsePositiveDetector.checkVersionMismatch,
            FalsePositiveDetector.checkDevOnlyDependency,
            FalsePositiveDetector.checkUnusedTransitive,
            FalsePositiveDetector.defaultResult]
        rw [hres] at hfp
        cases hfp
  · intro fp tv h
    simp only [JsonGenerator.calculateFpRate]
    rw [if_neg h]
    congr 1
    push_cast
    ring

/-- C9, concrete instance: a finding unreachable per the reachability record,
analyzed without a manifest, fires with a reason other than DEV_ONLY and
VERSION_MISMATCH; and the rate formula is evaluable at 1 of 4. -/
theorem no_manifest_no_dev_or_version_reasons_witness :
    (FalsePositiveDetector.analyzeVulnerability
        (Finding.mk "CVE-9b" "pkg" "1.0" "" "LOW" "" "") none
        (some (ReachabilityAnalyzer.ReachResults.mk [] [] ["pkg"]
          [("CVE-9b", ReachabilityAnalyzer.ReachabilityInfo.mk false "HIGH"
            "No invocation path" none none none none none "prod")]))
        "linux").isFalsePositive = true ∧
    (FalsePositiveDetector.analyzeVulnerability
        (Finding.mk "CVE-9b" "pkg" "1.0" "" "LOW" "" "") none
        (some (ReachabilityAnalyzer.ReachResults.mk [] [] ["pkg"]
          [("CVE-9b", ReachabilityAnalyzer.ReachabilityInfo.mk false "HIGH"
            "No invocation path" none none none none none "prod")]))
        "linux").reason ≠ some "DEV_ONLY" ∧
    (FalsePositiveDetector.analyzeVulnerability
        (Finding.mk "CVE-9b" "pkg" "1.0" "" "LOW" "" "") none
        (some (ReachabilityAnalyzer.ReachResults.mk [] [] ["pkg"]
          [("CVE-9b", ReachabilityAnalyzer.ReachabilityInfo.mk false "HIGH"
            "No invocation path" none none none none none "prod")]))
        "linux").reason ≠ some "VERSION_MISMATCH" ∧
    JsonGenerator.calculateFpRate 1 3 =
      round ((100 * (1 : ℚ)) / ((1 : ℚ) + (3 : ℚ))) := by
  have h := no_manifest_no_dev_or_version_reasons.1
    (Finding.mk "CVE-9b" "pkg" "1.0" "" "LOW" "" "")
    (some (ReachabilityAnalyzer.ReachResults.mk [] [] ["pkg"]
      [("CVE-9b", ReachabilityAnalyzer.ReachabilityInfo.mk false "HIGH"
        "No invocation path" none none none none none "prod")]))
    "linux" (by decide)
  exact ⟨by decide, h.1, h.2,
    no_manifest_no_dev_or_version_reasons.2.1 1 3 (by decide)⟩

/-- C10 counterexample: for the empty version strings the cleaned strings are
identical (hence each a prefix of the other), yet versionsMatch is false — the
raw-emptiness guard precedes the prefix rule, so the claim's matching condition
fails on empty inputs. -/
theorem version_prefix_tolerance_counterexample :
    strStartsWith (cleanVersionString "") (cleanVersionString "") = true ∧
    versionsMatch "" "" = false := by decide

/-- Helper: if the version-mismatch loop fires, some manifest entry fires. -/
theorem versionLoop_fired_exists (depName reportedVersion : String) :
    ∀ l : List (String × DepValue),
    (FalsePositiveDetector.versionLoop depName reportedVersion l).isFalsePositive = true →
    ∃ p ∈ l, vmFires depName reportedVersion p = true := by
  intro l
  induction l with
  | nil => intro h; cases h
  | cons q rest ih =>
    intro h
    obtain ⟨qn, qi⟩ := q
    by_cases hq : vmFires depName reportedVersion (qn, qi) = true
    · exact ⟨(qn, qi), List.mem_cons_self _ _, hq⟩
    · have hq' : (normalizePackageName qn = normalizePackageName depName &&
          qi.versionOf ≠ "" && reportedVersion ≠ "" &&
          !versionsMatch qi.versionOf reportedVersion) = false := by
        rw [show (normalizePackageName qn = normalizePackageName depName &&
            qi.versionOf ≠ "" && reportedVersion ≠ "" &&
            !versionsMatch qi.versionOf reportedVersion) =
            vmFires depName reportedVersion (qn, qi) from rfl]
        exact Bool.not_eq_true _ ▸ Bool.eq_false_iff.mpr hq
      rw [show FalsePositiveDetector.versionLoop depName reportedVersion
          ((qn, qi) :: rest) =
          FalsePositiveDetector.versionLoop depName reportedVersion rest by
        simp only [FalsePositiveDetector.versionLoop, hq', if_false,
          Bool.false_eq_true]] at h
      obtain ⟨p, hp, hf⟩ := ih h
      exact ⟨p, List.mem_cons_of_mem _ hp, hf⟩

/-- C10 amended: after cleaning (stripping range operators and whitespace),
a prefix relation in either direction makes two NONEMPTY version strings match,
so the version-mismatch check can only fire on an entry whose declared version
does not satisfy versionsMatch against the reported version; empty raw strings
never match regardless of the prefix rule. -/
theorem version_prefix_tolerance (v1 v2 : String) (h1 : v1 ≠ "") (h2 : v2 ≠ "")
    (hpre : strStartsWith (cleanVersionString v1) (cleanVersionString v2) = true ∨
      strStartsWith (cleanVersionString v2) (cleanVersionString v1) = true) :
    versionsMatch v1 v2 = true ∧
    ∀ (vuln : Finding) (m : Manifest),
      (FalsePositiveDetector.checkVersionMismatch vuln
        (some m)).isFalsePositive = true →
      ∃ p ∈ m.dependencies,
        normalizePackageName p.1 =
          normalizePackageName (FalsePositiveDetector.extractPackageName vuln.dependency) ∧
        versionsMatch p.2.versionOf
          (jsOrStr (some vuln.version) vuln.reportedVersion) = false := by
  constructor
  · rw [versionsMatch, if_neg (by simp [h1, h2])]
    rcases hpre with hd | hd <;> simp [hd]
  · intro vuln m hfp
    have hl := versionLoop_fired_exists
      (FalsePositiveDetector.extractPackageName vuln.dependency)
      (jsOrStr (some vuln.version) vuln.reportedVersion) m.dependencies hfp
    obtain ⟨p, hp, hf⟩ := hl
    refine ⟨p, hp, ?_, ?_⟩
    · have := (Bool.and_eq_true _ _).mp ((Bool.and_eq_true _ _).mp
        ((Bool.and_eq_true _ _).mp hf).1).1
      simpa using this.1
    · have := (Bool.and_eq_true _ _).mp hf
      simpa using this.2

/-- C10 amended, concrete instance: a manifest version that is a cleaned
prefix of the reported version matches, so 4.17 never mismatches 4.17.15. -/
theorem version_prefix_tolerance_witness :
    versionsMatch "4.17" "4.17.15" = true :=
  (version_prefix_tolerance "4.17" "4.17.15" (by decide) (by decide)
    (Or.inr (by decide))).1
